import Mathlib

/-!
Verification of the saga-execution behaviour of the `temporal-warmups`
repository, centred on `exercise-05-booking` (the travel-booking saga), with
supporting material from `exercise-02-orders` and `exercise-07-order-system`.

The development shallowly embeds:
* the booking database (`database.py`) with its availability bookkeeping,
* the forward activities `book_flight` / `book_hotel` / `book_car` and the
  compensating activities `cancel_flight` / `cancel_hotel` / `cancel_car`
  (`activities.py`),
* the orchestration control flow of the solution workflow
  (`solution/workflow.py`) and of the flawed exercise workflow
  (`workflow.py`),
* the naive retry loop of `exercise-02-orders/pre-temporal.py`.

Dates are represented as natural day numbers (the Python code round-trips ISO
date strings through `datetime`, which is order-isomorphic to day numbers);
dictionaries are represented as association lists; in-place mutation of
objects reached through Python references becomes explicit positional update
of the enclosing lists.  Randomness (`random.random()` draws) and activity
outcomes are passed in as explicit oracle arguments.

The retry-policy evaluator itself lives in the external Temporal runtime, not
in the repository; where it is needed it is modelled from the spec (see
`shouldRetry`, `nextDelay`, `executeWithRetry`), while the policy *constants*
(`DEFAULT_RETRY_POLICY`) are taken from the source.
-/

/- ## Generic list and association-list helpers -/

/-- Replace the first element satisfying `p` by its image under `f`
(models in-place mutation of the first matching object found by a linear
scan in Python). -/
def updateFirst {α : Type} (p : α → Bool) (f : α → α) : List α → List α
  | [] => []
  | x :: xs => if p x then f x :: xs else x :: updateFirst p f xs

/-- Python `d.get(k)` / `d[k]` lookup on a dict modelled as an association
list: the entry for a key, if present. -/
def assocGet {α : Type} (m : List (String × α)) (k : String) : Option α :=
  (m.find? (fun e => e.1 == k)).map (fun e => e.2)

/-- Python `d[k] = v`: overwrite-or-insert. -/
def assocDel {α : Type} (m : List (String × α)) (k : String) : List (String × α) :=
  m.filter (fun e => !(e.1 == k))

/-- Python `d[k] = v`: the entry for `k` is replaced (dict keys are unique). -/
def assocSet {α : Type} (m : List (String × α)) (k : String) (v : α) : List (String × α) :=
  (k, v) :: assocDel m k

/-- Python `d.get(k, default)`. -/
def assocGetD {α : Type} (m : List (String × α)) (k : String) (d : α) : α :=
  (assocGet m k).getD d

/- ## Retry policies

The `RetryPolicy` record mirrors `temporalio.common.RetryPolicy` as configured
in the source; `DEFAULT_RETRY_POLICY` is the constant declared in
`exercise-05-booking/solution/workflow.py` lines 8-13 (the identical constant
appears in `exercise-07-order-system/solution/child_workflows.py` lines 6-11).
Intervals are in seconds. -/

structure RetryPolicy where
  maximum_attempts : ℕ
  initial_interval : ℚ
  maximum_interval : ℚ
  backoff_coefficient : ℚ
  deriving DecidableEq

def DEFAULT_RETRY_POLICY : RetryPolicy :=
  { maximum_attempts := 3
    initial_interval := 1
    maximum_interval := 10
    backoff_coefficient := 2 }

/-- Error classification of the spec's action interface: `Transient` errors
are retried, `Permanent` ones are not. -/
inductive ErrKind where
  | transient
  | permanent
  deriving DecidableEq

/-- Result of one invocation of an action: success, or failure carrying its
error classification. -/
inductive AttemptResult where
  | success
  | failure (kind : ErrKind)
  deriving DecidableEq

/-- Recorded outcome of one attempt, as it appears in the step log. -/
inductive Outcome where
  | Success
  | Failure
  deriving DecidableEq

/-- Modelled from the spec (§4.1): the retry-policy evaluator of the Temporal
runtime, which is not part of the repository; `shouldRetry(attemptNumber,
errorKind)` returns false when `attemptNumber >= maxAttempts` or the error is
Permanent.  This matches the runtime behaviour configured by the source:
activities raise `ApplicationError` without `non_retryable`, and
`maximum_attempts` bounds the attempts. -/
def shouldRetry (p : RetryPolicy) (attemptNumber : ℕ) (kind : ErrKind) : Bool :=
  ¬ (attemptNumber ≥ p.maximum_attempts ∨ kind = ErrKind.permanent)

/-- Modelled from the spec (§4.1): the backoff delay before attempt
`attemptNumber + 1`, `min(initialInterval * backoffCoefficient^(attemptNumber
- 1), maxInterval)`; a pure function of its arguments. -/
def nextDelay (p : RetryPolicy) (attemptNumber : ℕ) : ℚ :=
  min (p.initial_interval * p.backoff_coefficient ^ (attemptNumber - 1)) p.maximum_interval

/-- Fuel-indexed attempt loop: run attempts `n, n+1, ...` of `act` until one
succeeds or `shouldRetry` denies a further attempt, recording one log entry
per attempt.  The fuel is an upper bound on the remaining attempts; with
`fuel = maximum_attempts` and `n = 1` it never runs out first. -/
def runAttempts (p : RetryPolicy) (act : ℕ → AttemptResult) : ℕ → ℕ → List Outcome × Bool
  | 0, _ => ([], false)
  | fuel + 1, n =>
    match act n with
    | AttemptResult.success => ([Outcome.Success], true)
    | AttemptResult.failure k =>
      if shouldRetry p n k then
        let rest := runAttempts p act fuel (n + 1)
        (Outcome.Failure :: rest.1, rest.2)
      else ([Outcome.Failure], false)

/-- Modelled from the spec (§4.3) and the Temporal runtime: drive one
action through its retry policy starting at attempt 1.  Returns the
per-attempt log and whether the action eventually succeeded. -/
def executeWithRetry (p : RetryPolicy) (act : ℕ → AttemptResult) : List Outcome × Bool :=
  runAttempts p act p.maximum_attempts 1

/- ## Orchestration skeleton of the solution workflow

`BookingWorkflow.run` in `exercise-05-booking/solution/workflow.py` executes
five activities in sequence, each through `workflow.execute_activity` with
`DEFAULT_RETRY_POLICY`:

  step 0 = `store_booking_request`, step 1 = `book_flight`,
  step 2 = `book_hotel`, step 3 = `book_car`, step 4 = `accept_payment`.

On an `ActivityError` (raised when an activity exhausts its retries or fails
permanently) the `except` block runs `cancel_car` if `car_result` is set,
then `cancel_hotel` if `hotel_result` is set, then `cancel_flight` if
`flight_result` is set — i.e. compensations of the successfully completed
compensable steps in descending step order — and then re-raises.

Per-attempt activity outcomes are supplied by oracles: `acts i n` is the
result of attempt `n` of step `i`'s forward activity, `comps i n` that of
attempt `n` of step `i`'s compensation activity (`comps 1 = cancel_flight`,
`comps 2 = cancel_hotel`, `comps 3 = cancel_car`). -/

/-- Saga-instance status.  Modelled from the spec (§3): the repository has no
explicit status field; the mapping used throughout is: try-block finished →
`Completed`; except-block ran all pending compensations to success and
re-raised the original error → `Compensated`; a compensation itself failed
terminally (its `ActivityError` escapes the except block) → `Failed`. -/
inductive SagaStatus where
  | Completed
  | Compensating
  | Compensated
  | Failed
  deriving DecidableEq

/-- Result of one embedded run of the solution workflow. -/
structure RunResult where
  /-- forward step log: one `(stepIndex, outcome)` record per attempt, in
  append order. -/
  log : List (ℕ × Outcome)
  /-- step indices whose compensation activity was invoked, in invocation
  order. -/
  comps : List ℕ
  /-- compensation log: one `(stepIndex, outcome)` record per compensation
  attempt, in append order. -/
  compLog : List (ℕ × Outcome)
  /-- terminal status under the spec's status mapping. -/
  status : SagaStatus
  deriving DecidableEq

/-- One `workflow.execute_activity` call for the compensation of step `i`. -/
def runComp (comps : ℕ → ℕ → AttemptResult) (i : ℕ) : List (ℕ × Outcome) × Bool :=
  let r := executeWithRetry DEFAULT_RETRY_POLICY (comps i)
  (r.1.map (fun o => (i, o)), r.2)

/-- The `except ActivityError` block of `BookingWorkflow.run`
(`solution/workflow.py` lines 136-164): cancel car, hotel, flight in that
order, guarded by whether the corresponding result variable was set; if one
compensation activity itself fails terminally, its error escapes the handler
(the remaining compensations never run) and the workflow fails; otherwise the
original error is re-raised after all compensations. -/
def compensateBlock (comps : ℕ → ℕ → AttemptResult)
    (flightDone hotelDone carDone : Bool) : List ℕ × List (ℕ × Outcome) × SagaStatus :=
  if carDone then
    let c3 := runComp comps 3
    if c3.2 then
      if hotelDone then
        let c2 := runComp comps 2
        if c2.2 then
          if flightDone then
            let c1 := runComp comps 1
            if c1.2 then ([3, 2, 1], c3.1 ++ c2.1 ++ c1.1, SagaStatus.Compensated)
            else ([3, 2, 1], c3.1 ++ c2.1 ++ c1.1, SagaStatus.Failed)
          else ([3, 2], c3.1 ++ c2.1, SagaStatus.Compensated)
        else ([3, 2], c3.1 ++ c2.1, SagaStatus.Failed)
      else
        if flightDone then
          let c1 := runComp comps 1
          if c1.2 then ([3, 1], c3.1 ++ c1.1, SagaStatus.Compensated)
          else ([3, 1], c3.1 ++ c1.1, SagaStatus.Failed)
        else ([3], c3.1, SagaStatus.Compensated)
    else ([3], c3.1, SagaStatus.Failed)
  else
    if hotelDone then
      let c2 := runComp comps 2
      if c2.2 then
        if flightDone then
          let c1 := runComp comps 1
          if c1.2 then ([2, 1], c2.1 ++ c1.1, SagaStatus.Compensated)
          else ([2, 1], c2.1 ++ c1.1, SagaStatus.Failed)
        else ([2], c2.1, SagaStatus.Compensated)
      else ([2], c2.1, SagaStatus.Failed)
    else
      if flightDone then
        let c1 := runComp comps 1
        if c1.2 then ([1], c1.1, SagaStatus.Compensated)
        else ([1], c1.1, SagaStatus.Failed)
      else ([], [], SagaStatus.Compensated)

/-- Tag a step's attempt log with its step index. -/
def tagLog (i : ℕ) (l : List Outcome) : List (ℕ × Outcome) :=
  l.map (fun o => (i, o))

/-- Assemble the run result for the failure path: forward log so far plus the
except-block behaviour. -/
def failWith (log : List (ℕ × Outcome)) (comps : ℕ → ℕ → AttemptResult)
    (flightDone hotelDone carDone : Bool) : RunResult :=
  let c := compensateBlock comps flightDone hotelDone carDone
  { log := log, comps := c.1, compLog := c.2.1, status := c.2.2 }

/-- Embedding of `BookingWorkflow.run` from
`exercise-05-booking/solution/workflow.py`: the five forward activities in
sequence, each under `DEFAULT_RETRY_POLICY`, with the except-block
compensation on the first terminal failure. -/
def bookingRun (acts : ℕ → ℕ → AttemptResult) (comps : ℕ → ℕ → AttemptResult) : RunResult :=
  let e0 := executeWithRetry DEFAULT_RETRY_POLICY (acts 0)
  let l0 := tagLog 0 e0.1
  if e0.2 then
    let e1 := executeWithRetry DEFAULT_RETRY_POLICY (acts 1)
    let l1 := l0 ++ tagLog 1 e1.1
    if e1.2 then
      let e2 := executeWithRetry DEFAULT_RETRY_POLICY (acts 2)
      let l2 := l1 ++ tagLog 2 e2.1
      if e2.2 then
        let e3 := executeWithRetry DEFAULT_RETRY_POLICY (acts 3)
        let l3 := l2 ++ tagLog 3 e3.1
        if e3.2 then
          let e4 := executeWithRetry DEFAULT_RETRY_POLICY (acts 4)
          let l4 := l3 ++ tagLog 4 e4.1
          if e4.2 then
            { log := l4, comps := [], compLog := [], status := SagaStatus.Completed }
          else failWith l4 comps true true true
        else failWith l3 comps true true false
      else failWith l2 comps true false false
    else failWith l1 comps false false false
  else failWith l0 comps false false false

/- ## Orchestration skeleton of the flawed exercise workflow

`BookingWorkflow.run` in `exercise-05-booking/workflow.py` runs
`book_flight`, `book_hotel`, `book_car`, `accept_payment` (steps 1-4, no
`store_booking_request` step) and then, still inside the workflow function,
draws `random.random()` to decide which confirmation-email log line to emit
(lines 124-130).  Its `except Exception` block (lines 139-165) only logs
warnings: it invokes no compensation activity and does not re-raise, so the
workflow returns normally.  (As written the handler would actually crash with
an `AttributeError` on `self.bookings`, an attribute that is never assigned;
the embedding follows the handler's documented straight-line behaviour — the
code's own comments: "We just log warnings but don't actually cancel
anything!".) -/

/-- Result of one embedded run of the flawed workflow. -/
structure FlawedResult where
  /-- forward step log, as in `RunResult`. -/
  log : List (ℕ × Outcome)
  /-- compensation activities invoked (always none in this workflow). -/
  comps : List ℕ
  /-- whether the run terminates by (re-)raising the failure. -/
  raised : Bool
  /-- `some b` when step 5 was reached and the email branch read the
  unrecorded random draw `b` (`random.random() < 0.10`); `none` when the
  exception path skipped step 5. -/
  emailBranch : Option Bool
  deriving DecidableEq

/-- Embedding of the flawed `BookingWorkflow.run` from
`exercise-05-booking/workflow.py`.  `emailFail` is the unrecorded
`random.random() < 0.10` draw of line 127. -/
def flawedRun (acts : ℕ → ℕ → AttemptResult) (emailFail : Bool) : FlawedResult :=
  let e1 := executeWithRetry DEFAULT_RETRY_POLICY (acts 1)
  let l1 := tagLog 1 e1.1
  if e1.2 then
    let e2 := executeWithRetry DEFAULT_RETRY_POLICY (acts 2)
    let l2 := l1 ++ tagLog 2 e2.1
    if e2.2 then
      let e3 := executeWithRetry DEFAULT_RETRY_POLICY (acts 3)
      let l3 := l2 ++ tagLog 3 e3.1
      if e3.2 then
        let e4 := executeWithRetry DEFAULT_RETRY_POLICY (acts 4)
        let l4 := l3 ++ tagLog 4 e4.1
        if e4.2 then
          { log := l4, comps := [], raised := false, emailBranch := some emailFail }
        else { log := l4, comps := [], raised := false, emailBranch := none }
      else { log := l3, comps := [], raised := false, emailBranch := none }
    else { log := l2, comps := [], raised := false, emailBranch := none }
  else { log := l1, comps := [], raised := false, emailBranch := none }

/- ## Booking data model (`exercise-05-booking/database.py`)

Dates are day numbers (`ℕ`); the Python code's ISO-string dates round-trip
through `datetime.fromisoformat` / `strftime`, which is order- and
successor-preserving, so day numbers model them exactly.  Python dicts keyed
by confirmation code become association lists. -/

structure Airport where
  code : String
  name : String
  city : String
  deriving DecidableEq

structure TravelBookingRequest where
  confirmation_code : String
  customer_name : String
  customer_email : String
  departure_city : String
  destination_city : String
  carriage_class : String
  departure_date : ℕ
  return_date : ℕ
  num_passengers : ℕ
  airline : String
  room_type : String
  car_type : String
  deriving DecidableEq

structure Flight where
  flight_number : String
  airline : String
  price : ℚ
  departure_time : String
  arrival_time : String
  departure_airport : String
  arrival_airport : String
  deriving DecidableEq

structure SeatInstance where
  seat_number : String
  carriage_class : String
  date : ℕ
  is_available : Bool
  deriving DecidableEq

structure FlightInstance where
  flight_number : String
  date : ℕ
  seats : List SeatInstance
  airplane : String
  deriving DecidableEq

structure FlightReservationRequest where
  confirmation_code : String
  carriage_class : String
  departure_date : ℕ
  departure_city : String
  destination_city : String
  airline : String
  deriving DecidableEq

structure CompletedFlightReservation where
  confirmation_code : String
  customer_name : String
  customer_email : String
  flight_number : String
  date : ℕ
  seat_numbers : List String
  carriage_class : String
  price : ℚ
  booked_at : String
  deriving DecidableEq

/-- `Room.book_dates` / `Car.book_dates`: mark each date unavailable unless it
already is (`if date not in self.unavailable_dates: append`). -/
def bookDatesList (u : List ℕ) (dates : List ℕ) : List ℕ :=
  dates.foldl (fun acc d => if acc.contains d then acc else acc ++ [d]) u

/-- The release loops of `cancel_hotel` / `cancel_car`: for each date, remove
it if present (`if date in unavailable_dates: remove(date)`; Python
`list.remove` deletes the first occurrence). -/
def releaseDatesList (u : List ℕ) (dates : List ℕ) : List ℕ :=
  dates.foldl (fun acc d => if acc.contains d then acc.erase d else acc) u

structure Room where
  room_number : String
  room_type : String
  unavailable_dates : List ℕ
  deriving DecidableEq

/-- `Room.is_available`: none of the requested dates is marked unavailable. -/
def Room.is_available (r : Room) (dates : List ℕ) : Bool :=
  !(dates.any (fun d => r.unavailable_dates.contains d))

/-- `Room.book_dates`. -/
def Room.book_dates (r : Room) (dates : List ℕ) : Room :=
  { r with unavailable_dates := bookDatesList r.unavailable_dates dates }

structure Hotel where
  hotel_name : String
  hotel_id : String
  city : String
  airport_code : String
  rooms : List Room
  rates : List (String × ℚ)
  deriving DecidableEq

structure HotelReservationRequest where
  confirmation_code : String
  city : String
  hotel_name : String
  room_type : String
  check_in : ℕ
  check_out : ℕ
  deriving DecidableEq

structure CompletedHotelReservation where
  confirmation_code : String
  customer_name : String
  hotel_name : String
  room_number : String
  room_type : String
  check_in : ℕ
  check_out : ℕ
  price : ℚ
  booked_at : String
  deriving DecidableEq

structure Car where
  license_plate : String
  make : String
  model : String
  unavailable_dates : List ℕ
  car_type : String
  location : String
  daily_rate : ℚ
  deriving DecidableEq

/-- `Car.is_available`. -/
def Car.is_available (c : Car) (dates : List ℕ) : Bool :=
  !(dates.any (fun d => c.unavailable_dates.contains d))

/-- `Car.book_dates`. -/
def Car.book_dates (c : Car) (dates : List ℕ) : Car :=
  { c with unavailable_dates := bookDatesList c.unavailable_dates dates }

structure CarReservationRequest where
  confirmation_code : String
  rental_company : String
  car_type : String
  pickup_date : ℕ
  return_date : ℕ
  deriving DecidableEq

structure CompletedCarReservation where
  confirmation_code : String
  customer_name : String
  license_plate : String
  car_type : String
  pickup_date : ℕ
  return_date : ℕ
  price : ℚ
  booked_at : String
  deriving DecidableEq

structure CompletedPayment where
  id : String
  confirmation_code : String
  deriving DecidableEq

structure CompletedTravelBooking where
  confirmation_code : String
  customer_name : String
  customer_email : String
  payment_id : String
  total_price : ℚ
  booked_at : String
  deriving DecidableEq

/-- `BookingDatabase` (`database.py` lines 249-269). -/
structure BookingDatabase where
  airports : List Airport
  flights : List Flight
  flight_instances : List FlightInstance
  hotels : List Hotel
  cars : List Car
  booking_requests : List (String × TravelBookingRequest)
  flight_reservations : List (String × CompletedFlightReservation)
  hotel_reservations : List (String × CompletedHotelReservation)
  car_reservations : List (String × CompletedCarReservation)
  completed_bookings : List (String × CompletedTravelBooking)
  deriving DecidableEq

/-- The hotel-night date list generated by `while current < out_date` loops
(`book_hotel`, `cancel_hotel`, `find_available_hotel_room`):
`[check_in, check_out)`. -/
def dateRangeExcl (a b : ℕ) : List ℕ :=
  (List.range (b - a)).map (fun i => a + i)

/-- The car-rental date list generated by `while current <= return_date`
loops (`book_car`, `cancel_car`, `find_available_car`):
`[pickup_date, return_date]` inclusive. -/
def dateRangeIncl (a b : ℕ) : List ℕ :=
  (List.range (b + 1 - a)).map (fun i => a + i)

/-- The `{airport.city: airport.code for airport in self.airports}` dict
lookups: a Python dict comprehension keeps the last entry per key, so this is
the code of the last airport listed for the city. -/
def city_to_airport (airports : List Airport) (city : String) : Option String :=
  ((airports.filter (fun a => a.city == city)).map (fun a => a.code)).getLast?

/-- Python `next((x for x in l if p x), None)`, also exposing the position of
the matched object (Python returns an aliased reference which callers mutate
in place; the position identifies that object in the embedding). -/
def findWithIdx {α : Type} (p : α → Bool) : List α → ℕ → Option (ℕ × α)
  | [], _ => none
  | x :: xs, i => if p x then some (i, x) else findWithIdx p xs (i + 1)

/-- `BookingDatabase.get_flight_instance`: first instance with the given
flight number and date. -/
def get_flight_instance (db : BookingDatabase) (fn : String) (date : ℕ) : Option FlightInstance :=
  db.flight_instances.find? (fun fi => fi.flight_number == fn && fi.date == date)

/-- `BookingDatabase.find_available_seat`: first available seat of the class
on the instance. -/
def find_available_seat (db : BookingDatabase) (fn : String) (date : ℕ)
    (carriage_class : String) : Option SeatInstance :=
  match get_flight_instance db fn date with
  | none => none
  | some inst => inst.seats.find? (fun s => s.carriage_class == carriage_class && s.is_available)

/-- `BookingDatabase.find_available_flight`. -/
def find_available_flight (db : BookingDatabase) (departure_city destination_city : String)
    (date : ℕ) (carriage_class : String) : Option (Flight × FlightInstance × SeatInstance) :=
  match city_to_airport db.airports departure_city, city_to_airport db.airports destination_city with
  | some dep, some arr =>
    (db.flights.filter (fun f => f.departure_airport == dep && f.arrival_airport == arr)).findSome?
      (fun f =>
        match get_flight_instance db f.flight_number date with
        | none => none
        | some inst =>
          match find_available_seat db f.flight_number date carriage_class with
          | none => none
          | some seat => some (f, inst, seat))
  | _, _ => none

/-- `BookingDatabase.book_seat`: scan the first matching instance for the
first seat with the given number; fail if absent or already booked, else mark
it unavailable. -/
def book_seat (db : BookingDatabase) (fn : String) (date : ℕ) (sn : String) :
    Bool × BookingDatabase :=
  match get_flight_instance db fn date with
  | none => (false, db)
  | some inst =>
    match inst.seats.find? (fun s => s.seat_number == sn) with
    | none => (false, db)
    | some seat =>
      if seat.is_available then
        (true, { db with flight_instances :=
          (updateFirst (fun fi => fi.flight_number == fn && fi.date == date)
            (fun fi => { fi with seats :=
              (updateFirst (fun s => s.seat_number == sn)
                (fun s => { s with is_available := false }) fi.seats) })
            db.flight_instances) })
      else (false, db)

/-- `BookingDatabase.release_seat`: mark the first seat with the given number
available again (unconditionally). -/
def release_seat (db : BookingDatabase) (fn : String) (date : ℕ) (sn : String) :
    Bool × BookingDatabase :=
  match get_flight_instance db fn date with
  | none => (false, db)
  | some inst =>
    match inst.seats.find? (fun s => s.seat_number == sn) with
    | none => (false, db)
    | some _ =>
      (true, { db with flight_instances :=
        (updateFirst (fun fi => fi.flight_number == fn && fi.date == date)
          (fun fi => { fi with seats :=
            (updateFirst (fun s => s.seat_number == sn)
              (fun s => { s with is_available := true }) fi.seats) })
          db.flight_instances) })

/-- `BookingDatabase.get_available_seat_count`. -/
def get_available_seat_count (db : BookingDatabase) (fn : String) (date : ℕ)
    (carriage_class : String) : ℕ :=
  match get_flight_instance db fn date with
  | none => 0
  | some inst =>
    (inst.seats.filter (fun s => s.carriage_class == carriage_class && s.is_available)).length

/-- Iteration core of `BookingDatabase.find_available_hotel_room`: first
city-matching hotel containing a type-matching available room, together with
the positions of the hotel and room (the Python method returns the aliased
objects, which `book_hotel` mutates in place). -/
def findHotelRoomAux (city t : String) (dates : List ℕ) :
    List Hotel → ℕ → Option (ℕ × ℕ × Hotel × Room)
  | [], _ => none
  | h :: hs, i =>
    if h.city == city then
      match findWithIdx (fun r => r.room_type == t && r.is_available dates) h.rooms 0 with
      | some (j, r) => some (i, j, h, r)
      | none => findHotelRoomAux city t dates hs (i + 1)
    else findHotelRoomAux city t dates hs (i + 1)

/-- `BookingDatabase.find_available_hotel_room`. -/
def find_available_hotel_room (db : BookingDatabase) (city room_type : String)
    (check_in check_out : ℕ) : Option (ℕ × ℕ × Hotel × Room) :=
  findHotelRoomAux city room_type (dateRangeExcl check_in check_out) db.hotels 0

/-- `BookingDatabase.find_available_car`: first car at the city's location
with the requested type, available for the whole inclusive date range. -/
def find_available_car (db : BookingDatabase) (city car_type : String)
    (pickup_date return_date : ℕ) : Option (ℕ × Car) :=
  match city_to_airport db.airports city with
  | none => none
  | some location =>
    findWithIdx
      (fun c => c.location == location && c.car_type == car_type &&
        c.is_available (dateRangeIncl pickup_date return_date))
      db.cars 0

/- ## Activities (`exercise-05-booking/activities.py`)

Activities act on the shared `BookingDatabase`; fallible ones return
`Except`.  The simulated-outage draws (`random.random() < 0.25` in
`book_hotel`, `< 0.40` in `book_car`) are passed in as explicit booleans, and
`datetime.now().isoformat()` as the explicit `now` string. -/

/-- Errors an activity can raise.  Every `ApplicationError` in `activities.py`
is constructed without `non_retryable=True`; `keyError` models the Python
`KeyError` a `db.booking_requests[code]` lookup raises on a missing key. -/
inductive ActErr where
  | application (msg : String)
  | keyError (key : String)
  deriving DecidableEq

/-- Error classification as the Temporal runtime applies it to these
activities: an `ApplicationError` without `non_retryable=True` is retryable,
and so is any other exception such as `KeyError` — hence every error the
booking activities produce is Transient; none is Permanent. -/
def ActErr.kind : ActErr → ErrKind := fun _ => ErrKind.transient

/-- Whether the character list `pat` starts the character list `s`. -/
def charsStartWith : List Char → List Char → Bool
  | [], _ => true
  | _ :: _, [] => false
  | p :: ps, c :: cs => p == c && charsStartWith ps cs

/-- Whether the character list `pat` occurs contiguously in `s`. -/
def charsContain (pat : List Char) : List Char → Bool
  | [] => charsStartWith pat []
  | c :: cs => charsStartWith pat (c :: cs) || charsContain pat cs

/-- Python `pat in s` substring test (for the `"FORCE-PAYMENT-FAIL" in
confirmation_code` guards), on the strings' character sequences. -/
def containsSub (s pat : String) : Bool :=
  charsContain pat.data s.data

/-- `BookingDatabase.get_booking_request`: `self.booking_requests[code]`,
raising `KeyError` when absent. -/
def get_booking_request (db : BookingDatabase) (code : String) :
    Except ActErr TravelBookingRequest :=
  match assocGet db.booking_requests code with
  | some r => Except.ok r
  | none => Except.error (ActErr.keyError code)

/-- Activity `store_booking_request`: `db.add_booking_request(code, booking)`. -/
def store_booking_request (db : BookingDatabase) (booking : TravelBookingRequest) :
    BookingDatabase :=
  { db with booking_requests := assocSet db.booking_requests booking.confirmation_code booking }

/-- Activity `book_flight` (`activities.py` lines 27-69): look up the booking
request, search for an available flight, book the found seat, store the
completed reservation under the confirmation code.  (`price = flight.price if
flight else 350.00` always takes the first branch: `flight` is a found,
non-None dataclass.) -/
def book_flight (db : BookingDatabase) (request : FlightReservationRequest) (now : String) :
    Except ActErr (CompletedFlightReservation × BookingDatabase) :=
  match get_booking_request db request.confirmation_code with
  | Except.error e => Except.error e
  | Except.ok booking_request =>
    match find_available_flight db request.departure_city request.destination_city
        request.departure_date request.carriage_class with
    | none => Except.error (ActErr.application
        ("No available flights from " ++ request.departure_city ++ " to " ++ request.destination_city))
    | some (flight, _inst, seat) =>
      let bs := book_seat db flight.flight_number request.departure_date seat.seat_number
      if bs.1 then
        let completed : CompletedFlightReservation :=
          { confirmation_code := request.confirmation_code
            customer_name := booking_request.customer_name
            customer_email := booking_request.customer_email
            flight_number := flight.flight_number
            date := request.departure_date
            seat_numbers := [seat.seat_number]
            carriage_class := request.carriage_class
            price := flight.price
            booked_at := now }
        Except.ok (completed, { bs.2 with flight_reservations := (assocSet
          bs.2.flight_reservations request.confirmation_code completed) })
      else Except.error (ActErr.application ("Unable to book seats on flight " ++ flight.flight_number))

/-- Activity `book_hotel` (`activities.py` lines 73-133).  `svc_fail` is the
`random.random() < 0.25` draw, only honoured when the confirmation code does
not contain `"FORCE-PAYMENT-FAIL"`; the destination city comes from the
stored booking request; the found room (an aliased object, here identified by
its position) gets the nights `[check_in, check_out)` marked unavailable. -/
def book_hotel (db : BookingDatabase) (request : HotelReservationRequest) (now : String)
    (svc_fail : Bool) : Except ActErr (CompletedHotelReservation × BookingDatabase) :=
  match get_booking_request db request.confirmation_code with
  | Except.error e => Except.error e
  | Except.ok booking_request =>
    if !containsSub request.confirmation_code "FORCE-PAYMENT-FAIL" && svc_fail then
      Except.error (ActErr.application "Hotel booking service unavailable")
    else
      let city := booking_request.destination_city
      match find_available_hotel_room db city request.room_type request.check_in request.check_out with
      | none => Except.error (ActErr.application
          ("No available " ++ request.room_type ++ " rooms in " ++ city))
      | some (i, j, hotel, room) =>
        let dates := dateRangeExcl request.check_in request.check_out
        let db1 := { db with hotels :=
          (db.hotels.set i { hotel with rooms := (hotel.rooms.set j (room.book_dates dates)) }) }
        let total_price := assocGetD hotel.rates request.room_type 100 * (dates.length : ℚ)
        let completed : CompletedHotelReservation :=
          { confirmation_code := request.confirmation_code
            customer_name := booking_request.customer_name
            hotel_name := hotel.hotel_name
            room_number := room.room_number
            room_type := request.room_type
            check_in := request.check_in
            check_out := request.check_out
            price := total_price
            booked_at := now }
        Except.ok (completed, { db1 with hotel_reservations := (assocSet
          db1.hotel_reservations request.confirmation_code completed) })

/-- Activity `book_car` (`activities.py` lines 137-193).  `svc_fail` is the
`random.random() < 0.40` draw; the inclusive date range
`[pickup_date, return_date]` is marked unavailable on the found car. -/
def book_car (db : BookingDatabase) (request : CarReservationRequest) (now : String)
    (svc_fail : Bool) : Except ActErr (CompletedCarReservation × BookingDatabase) :=
  match get_booking_request db request.confirmation_code with
  | Except.error e => Except.error e
  | Except.ok booking_request =>
    if !containsSub request.confirmation_code "FORCE-PAYMENT-FAIL" && svc_fail then
      Except.error (ActErr.application "Car rental service unavailable")
    else
      let city := booking_request.destination_city
      match find_available_car db city request.car_type request.pickup_date request.return_date with
      | none => Except.error (ActErr.application
          ("No available " ++ request.car_type ++ " cars in " ++ city))
      | some (i, car) =>
        let dates := dateRangeIncl request.pickup_date request.return_date
        let db1 := { db with cars := (db.cars.set i (car.book_dates dates)) }
        let total_price := car.daily_rate * (dates.length : ℚ)
        let completed : CompletedCarReservation :=
          { confirmation_code := request.confirmation_code
            customer_name := booking_request.customer_name
            license_plate := car.license_plate
            car_type := request.car_type
            pickup_date := request.pickup_date
            return_date := request.return_date
            price := total_price
            booked_at := now }
        Except.ok (completed, { db1 with car_reservations := (assocSet
          db1.car_reservations request.confirmation_code completed) })

/-- Activity `cancel_flight` (`activities.py` lines 229-250): if no
reservation exists for the code, log a warning and return; otherwise release
each booked seat and delete the reservation.  The function raises nothing. -/
def cancel_flight (db : BookingDatabase) (confirmation_code : String) : BookingDatabase :=
  match assocGet db.flight_reservations confirmation_code with
  | none => db
  | some reservation =>
    let db1 := reservation.seat_numbers.foldl
      (fun d sn => (release_seat d reservation.flight_number reservation.date sn).2) db
    { db1 with flight_reservations := assocDel db1.flight_reservations confirmation_code }

/-- Activity `cancel_hotel` (`activities.py` lines 253-291): look up the
reservation, then the hotel by name and the room by number (first matches,
returning on a warning if any lookup fails), release the booked nights and
delete the reservation.  The function raises nothing. -/
def cancel_hotel (db : BookingDatabase) (confirmation_code : String) : BookingDatabase :=
  match assocGet db.hotel_reservations confirmation_code with
  | none => db
  | some reservation =>
    match findWithIdx (fun h => h.hotel_name == reservation.hotel_name) db.hotels 0 with
    | none => db
    | some (i, hotel) =>
      match findWithIdx (fun r => r.room_number == reservation.room_number) hotel.rooms 0 with
      | none => db
      | some (j, room) =>
        let dates := dateRangeExcl reservation.check_in reservation.check_out
        let room' := { room with unavailable_dates := releaseDatesList room.unavailable_dates dates }
        { db with
          hotels := (db.hotels.set i { hotel with rooms := (hotel.rooms.set j room') })
          hotel_reservations := assocDel db.hotel_reservations confirmation_code }

/-- Activity `cancel_car` (`activities.py` lines 295-328): look up the
reservation, then the car by license plate, release the inclusive rental
dates and delete the reservation.  The function raises nothing. -/
def cancel_car (db : BookingDatabase) (confirmation_code : String) : BookingDatabase :=
  match assocGet db.car_reservations confirmation_code with
  | none => db
  | some reservation =>
    match findWithIdx (fun c => c.license_plate == reservation.license_plate) db.cars 0 with
    | none => db
    | some (i, car) =>
      let dates := dateRangeIncl reservation.pickup_date reservation.return_date
      let car' := { car with unavailable_dates := releaseDatesList car.unavailable_dates dates }
      { db with
        cars := (db.cars.set i car')
        car_reservations := assocDel db.car_reservations confirmation_code }

/- ## The naive retry loop of `exercise-02-orders/pre-temporal.py` -/

/-- Loop body of `OrderProcessor.process_payment` (`pre-temporal.py` lines
48-79): `for attempt in range(max_attempts)` with `max_attempts = 3`; on a
gateway failure before the last attempt it sleeps `(attempt + 1) * 2` seconds
and retries, on the last it raises.  `gateway attempt` is true when the
simulated gateway call of the 0-based `attempt` succeeds.  Returns the
attempt-outcome log, the backoff delays slept, and whether a payment id was
returned. -/
def processPaymentAux (gateway : ℕ → Bool) : ℕ → ℕ → List Outcome × List ℕ × Bool
  | 0, _ => ([], [], false)
  | fuel + 1, attempt =>
    if gateway attempt then ([Outcome.Success], [], true)
    else if attempt < 3 - 1 then
      let rest := processPaymentAux gateway fuel (attempt + 1)
      (Outcome.Failure :: rest.1, (attempt + 1) * 2 :: rest.2.1, rest.2.2)
    else ([Outcome.Failure], [], false)

/-- `OrderProcessor.process_payment`: the loop starting at attempt 0 with
`max_attempts = 3` iterations. -/
def process_payment (gateway : ℕ → Bool) : List Outcome × List ℕ × Bool :=
  processPaymentAux gateway 3 0

/- ## Concrete fixtures for witnesses and counterexamples -/

/-- A booking request on file for confirmation code `"C1"`:
San Francisco → New York, departing day 10, returning day 12. -/
def demoRequest : TravelBookingRequest :=
  { confirmation_code := "C1"
    customer_name := "Alice Johnson"
    customer_email := "alice@example.com"
    departure_city := "San Francisco"
    destination_city := "New York"
    carriage_class := "economy"
    departure_date := 10
    return_date := 12
    num_passengers := 1
    airline := ""
    room_type := "standard"
    car_type := "economy" }

/-- A small booking database in the shape the seed loader produces: two
airports, one flight with one instance holding two available economy seats,
one hotel with two standard rooms, one car. -/
def demoDb : BookingDatabase :=
  { airports := [
      { code := "SFO", name := "San Francisco Intl", city := "San Francisco" },
      { code := "JFK", name := "John F Kennedy Intl", city := "New York" }]
    flights := [
      { flight_number := "AA1234", airline := "American Airlines", price := 350
        departure_time := "08:00", arrival_time := "16:00"
        departure_airport := "SFO", arrival_airport := "JFK" }]
    flight_instances := [
      { flight_number := "AA1234", date := 10
        seats := [
          { seat_number := "1A", carriage_class := "economy", date := 10, is_available := true },
          { seat_number := "1B", carriage_class := "economy", date := 10, is_available := true }]
        airplane := "B737" }]
    hotels := [
      { hotel_name := "Grand Plaza Hotel", hotel_id := "H1", city := "New York"
        airport_code := "JFK"
        rooms := [
          { room_number := "101", room_type := "standard", unavailable_dates := [] },
          { room_number := "102", room_type := "standard", unavailable_dates := [] }]
        rates := [("standard", 100)] }]
    cars := [
      { license_plate := "NY-123", make := "Toyota", model := "Corolla"
        unavailable_dates := [], car_type := "economy", location := "JFK", daily_rate := 50 }]
    booking_requests := [("C1", demoRequest)]
    flight_reservations := []
    hotel_reservations := []
    car_reservations := []
    completed_bookings := [] }

/-- Flight-reservation request derived from `demoRequest` exactly as
`BookingWorkflow.run` builds it. -/
def demoFlightReq : FlightReservationRequest :=
  { confirmation_code := "C1", carriage_class := "economy", departure_date := 10
    departure_city := "San Francisco", destination_city := "New York", airline := "" }

/-- Hotel-reservation request derived from `demoRequest` exactly as
`BookingWorkflow.run` builds it. -/
def demoHotelReq : HotelReservationRequest :=
  { confirmation_code := "C1", city := "New York", hotel_name := "Grand Plaza Hotel"
    room_type := "standard", check_in := 10, check_out := 12 }

/-- Car-reservation request derived from `demoRequest` exactly as
`BookingWorkflow.run` builds it. -/
def demoCarReq : CarReservationRequest :=
  { confirmation_code := "C1", rental_company := "Enterprise", car_type := "economy"
    pickup_date := 10, return_date := 12 }

/-- Total number of room-nights currently marked unavailable across all
hotels: the observable external effect of hotel bookings. -/
def hotelUnavailCount (db : BookingDatabase) : ℕ :=
  (db.hotels.map (fun h => (h.rooms.map (fun r => r.unavailable_dates.length)).sum)).sum

/-- Attempt oracle that fails transiently on attempts 1 and 2 and succeeds on
attempt 3 (spec scenario B). -/
def ffsAct : ℕ → AttemptResult :=
  fun n => if n < 3 then AttemptResult.failure ErrKind.transient else AttemptResult.success

/-- Gateway oracle for `process_payment` failing on 0-based attempts 0 and 1
and succeeding on attempt 2. -/
def ffsGateway : ℕ → Bool := fun a => 2 ≤ a

/-- Per-step attempt oracle for spec scenario A: every step succeeds at once
except step 2 (`book_hotel`), which fails permanently on attempt 1. -/
def scenarioA_acts : ℕ → ℕ → AttemptResult :=
  fun i _ => if i = 2 then AttemptResult.failure ErrKind.permanent else AttemptResult.success

/-- Per-step attempt oracle for spec scenario B embedded in the booking
workflow: step 2 (`book_hotel`) fails twice then succeeds, all other steps
succeed at once. -/
def scenarioB_acts : ℕ → ℕ → AttemptResult :=
  fun i n => if i = 2 then ffsAct n else AttemptResult.success

/-- Compensation oracle under which every compensation activity succeeds on
its first attempt (the booking `cancel_*` activities contain no `raise`). -/
def allOkComps : ℕ → ℕ → AttemptResult := fun _ _ => AttemptResult.success

/-- Forward oracle in which every step succeeds at once. -/
def allOkActs : ℕ → ℕ → AttemptResult := fun _ _ => AttemptResult.success

/-- Oracle for the failing run used against the flawed workflow: step 1
(`book_flight`) succeeds, step 2 (`book_hotel`) fails permanently. -/
def flawedFail_acts : ℕ → ℕ → AttemptResult :=
  fun i _ => if i = 1 then AttemptResult.success else AttemptResult.failure ErrKind.permanent

/-- Per-step compensation oracle for spec scenario C: the compensation of
step 3 (`cancel_car`) fails transiently on every attempt — it exhausts its
retry policy — while other compensations succeed. -/
def scenarioC_comps : ℕ → ℕ → AttemptResult :=
  fun i _ => if i = 3 then AttemptResult.failure ErrKind.transient else AttemptResult.success

/-- Forward oracle for spec scenario C: steps 0-3 succeed, step 4
(`accept_payment`) fails permanently. -/
def scenarioC_acts : ℕ → ℕ → AttemptResult :=
  fun i _ => if i = 4 then AttemptResult.failure ErrKind.permanent else AttemptResult.success

/- ## Basic facts about the retry evaluator -/

/-- The attempt log of `runAttempts` is bounded by the fuel. -/
theorem runAttempts_length_le (p : RetryPolicy) (act : ℕ → AttemptResult) :
    ∀ fuel n, (runAttempts p act fuel n).1.length ≤ fuel := by
  intro fuel
  induction fuel with
  | zero => intro n; simp [runAttempts]
  | succ f ih =>
    intro n
    simp only [runAttempts]
    cases act n with
    | success => simp
    | failure k =>
      by_cases h : shouldRetry p n k = true
      · simp only [h, if_true, List.length_cons]
        exact Nat.succ_le_succ (ih (n + 1))
      · simp only [Bool.not_eq_true] at h
        simp [h]

/-- A terminally failing `executeWithRetry` run records at least one
`Failure` in its attempt log (provided the policy allows an attempt). -/
theorem failure_mem_of_not_ok (p : RetryPolicy) (act : ℕ → AttemptResult)
    (hp : 1 ≤ p.maximum_attempts)
    (hf : (executeWithRetry p act).2 = false) :
    Outcome.Failure ∈ (executeWithRetry p act).1 := by
  unfold executeWithRetry at hf ⊢
  obtain ⟨f, hfe⟩ : ∃ f, p.maximum_attempts = f + 1 := ⟨p.maximum_attempts - 1, by omega⟩
  rw [hfe] at hf ⊢
  simp only [runAttempts] at hf ⊢
  cases h1 : act 1 with
  | success => simp [h1] at hf
  | failure k =>
    by_cases h : shouldRetry p 1 k = true
    · simp [h]
    · simp only [Bool.not_eq_true] at h
      simp [h]

/-- Claim C4: under a retry policy with `initialInterval = 1s`,
`backoffCoefficient = 2.0` and `maxInterval = 10s` (the source's
`DEFAULT_RETRY_POLICY`), the pure evaluator's delay before attempt
`attemptNumber + 1` follows `min(initialInterval *
backoffCoefficient^(attemptNumber-1), maxInterval)`: the successive delays
are 1s, 2s, 4s, 8s, and from attempt 5 onward they are capped at 10s. -/
theorem retry_backoff_schedule :
    nextDelay DEFAULT_RETRY_POLICY 1 = 1 ∧
    nextDelay DEFAULT_RETRY_POLICY 2 = 2 ∧
    nextDelay DEFAULT_RETRY_POLICY 3 = 4 ∧
    nextDelay DEFAULT_RETRY_POLICY 4 = 8 ∧
    ∀ n, 5 ≤ n → nextDelay DEFAULT_RETRY_POLICY n = 10 := by
  refine ⟨by norm_num [nextDelay, DEFAULT_RETRY_POLICY],
    by norm_num [nextDelay, DEFAULT_RETRY_POLICY],
    by norm_num [nextDelay, DEFAULT_RETRY_POLICY],
    by norm_num [nextDelay, DEFAULT_RETRY_POLICY], ?_⟩
  intro n hn
  have h4 : (2 : ℚ) ^ 4 ≤ 2 ^ (n - 1) :=
    pow_le_pow_right₀ (by norm_num) (by omega)
  simp only [nextDelay, DEFAULT_RETRY_POLICY, one_mul]
  rw [min_eq_right]
  calc (10 : ℚ) ≤ 2 ^ 4 := by norm_num
    _ ≤ 2 ^ (n - 1) := h4

/-- Witness for `retry_backoff_schedule` at attempt 6. -/
theorem retry_backoff_schedule_witness : nextDelay DEFAULT_RETRY_POLICY 6 = 10 :=
  retry_backoff_schedule.2.2.2.2 6 (by norm_num)

/-- The attempt log of `processPaymentAux` is bounded by the fuel. -/
theorem processPaymentAux_length_le (gateway : ℕ → Bool) :
    ∀ fuel attempt, (processPaymentAux gateway fuel attempt).1.length ≤ fuel := by
  intro fuel
  induction fuel with
  | zero => intro a; simp [processPaymentAux]
  | succ f ih =>
    intro a
    simp only [processPaymentAux]
    by_cases hg : gateway a = true
    · simp [hg]
    · simp only [Bool.not_eq_true] at hg
      by_cases ha : a < 3 - 1
      · simp only [hg, Bool.false_eq_true, if_false, ha, if_true, List.length_cons]
        exact Nat.succ_le_succ (ih (a + 1))
      · simp [hg, ha]

/-- Claim C5: under `maxAttempts = 3` a step's forward action is invoked at
most 3 times — both in the spec-modelled evaluator driving the workflow's
activities and in the hand-rolled loop of `OrderProcessor.process_payment` —
and when the action fails twice and succeeds on the third attempt the
recorded history is Failure, Failure, Success and the saga proceeds to the
next step (status `Completed`, no compensation invoked). -/
theorem step_retry_scenarioB :
    (∀ act, (executeWithRetry DEFAULT_RETRY_POLICY act).1.length ≤ 3) ∧
    (∀ gateway, (process_payment gateway).1.length ≤ 3) ∧
    executeWithRetry DEFAULT_RETRY_POLICY ffsAct =
      ([Outcome.Failure, Outcome.Failure, Outcome.Success], true) ∧
    process_payment ffsGateway =
      ([Outcome.Failure, Outcome.Failure, Outcome.Success], [2, 4], true) ∧
    (bookingRun scenarioB_acts allOkComps).log =
      [(0, Outcome.Success), (1, Outcome.Success), (2, Outcome.Failure), (2, Outcome.Failure),
       (2, Outcome.Success), (3, Outcome.Success), (4, Outcome.Success)] ∧
    (bookingRun scenarioB_acts allOkComps).status = SagaStatus.Completed ∧
    (bookingRun scenarioB_acts allOkComps).comps = [] := by
  refine ⟨fun act => runAttempts_length_le DEFAULT_RETRY_POLICY act 3 1,
    fun gateway => processPaymentAux_length_le gateway 3 0, ?_, ?_, ?_, ?_, ?_⟩
  · rfl
  · rfl
  · rfl
  · rfl
  · rfl

/-- Claim C2 (recording the repository's own flaw): in the exercise variant
`exercise-05-booking/workflow.py`, when `book_flight` succeeds and
`book_hotel` then fails terminally, the run ends with a `Success` recorded
for the flight and a `Failure` for the hotel, yet invokes no compensation
activity and does not re-raise — the failure is swallowed, exactly what the
file's own comments call out ("CRITICAL PROBLEM: INCOMPLETE ROLLBACK!",
"We just log warnings but don't actually cancel anything!"). -/
theorem flawed_workflow_swallows_failure :
    (flawedRun flawedFail_acts false).log = [(1, Outcome.Success), (2, Outcome.Failure)] ∧
    (flawedRun flawedFail_acts false).comps = [] ∧
    (flawedRun flawedFail_acts false).raised = false := by
  refine ⟨rfl, rfl, rfl⟩

/-- Counterexample to claim C8 as stated: two executions of the flawed
workflow over the identical recorded activity history but different values of
the unrecorded `random.random()` draw of `workflow.py` line 127 take
different confirmation-email branches. -/
theorem flawed_email_branch_random :
    (flawedRun allOkActs true).log = (flawedRun allOkActs false).log ∧
    (flawedRun allOkActs true).emailBranch ≠ (flawedRun allOkActs false).emailBranch := by
  refine ⟨rfl, by decide⟩

/-- Claim C8 as amended: the sequence of issued activity invocations (the
step log), the compensations, and whether the run raises are all determined
by the recorded activity outcomes alone — the unrecorded random draw only
selects which email log line is printed. -/
theorem issued_actions_deterministic (acts : ℕ → ℕ → AttemptResult) (e1 e2 : Bool) :
    (flawedRun acts e1).log = (flawedRun acts e2).log ∧
    (flawedRun acts e1).comps = (flawedRun acts e2).comps ∧
    (flawedRun acts e1).raised = (flawedRun acts e2).raised := by
  cases h1 : (executeWithRetry DEFAULT_RETRY_POLICY (acts 1)).2 <;>
    cases h2 : (executeWithRetry DEFAULT_RETRY_POLICY (acts 2)).2 <;>
      cases h3 : (executeWithRetry DEFAULT_RETRY_POLICY (acts 3)).2 <;>
        cases h4 : (executeWithRetry DEFAULT_RETRY_POLICY (acts 4)).2 <;>
          simp [flawedRun, h1, h2, h3, h4]

/- ## Error classification and retry-vs-compensate (claim C6) -/

/-- The demo database with no flights on file: `book_flight` then raises
"No available flights ..." — a condition the spec calls Permanent. -/
def noFlightsDb : BookingDatabase := { demoDb with flights := [] }

/-- One invocation of `book_flight` as the retry engine observes it.  All
failing paths of `book_flight` raise before any state change, so each retry
attempt runs against the same database and the oracle is constant across
attempts. -/
def bookFlightAttempt (db : BookingDatabase) (req : FlightReservationRequest) : AttemptResult :=
  match book_flight db req "t" with
  | Except.ok _ => AttemptResult.success
  | Except.error e => AttemptResult.failure e.kind

/-- Counterexample to claim C6 as stated: the "no available flights" error is
raised as an `ApplicationError` without `non_retryable=True`, hence
classified retryable (Transient); driving the step through
`DEFAULT_RETRY_POLICY` makes all 3 attempts — the failing step IS re-invoked
rather than triggering compensation after zero further attempts. -/
theorem no_flights_error_retried :
    book_flight noFlightsDb demoFlightReq "t" =
      Except.error (ActErr.application "No available flights from San Francisco to New York") ∧
    ActErr.kind (ActErr.application "No available flights from San Francisco to New York") =
      ErrKind.transient ∧
    (executeWithRetry DEFAULT_RETRY_POLICY
      (fun _ => bookFlightAttempt noFlightsDb demoFlightReq)).1.length = 3 := by
  refine ⟨rfl, rfl, rfl⟩

/-- Claim C6 as amended: an error classified Permanent is never retried —
the evaluator denies any further attempt, so a permanently failing action
records exactly one Failure and the saga moves to compensation at once
(concretely, a permanent hotel failure leaves a single hotel record and the
compensation sequence `[cancel_flight]` runs immediately); the booking
activities, however, classify every error they raise as Transient (none sets
`non_retryable`), so errors like "no available flights" are retried under
the backoff policy up to `maxAttempts` before compensation. -/
theorem permanent_not_retried (p : RetryPolicy) (act : ℕ → AttemptResult)
    (hp : 1 ≤ p.maximum_attempts)
    (h1 : act 1 = AttemptResult.failure ErrKind.permanent) :
    executeWithRetry p act = ([Outcome.Failure], false) ∧
    (bookingRun scenarioA_acts allOkComps).log.filter (fun e => e.1 = 2) =
      [(2, Outcome.Failure)] ∧
    (bookingRun scenarioA_acts allOkComps).comps = [1] ∧
    (∀ e : ActErr, e.kind = ErrKind.transient) := by
  refine ⟨?_, rfl, rfl, fun e => rfl⟩
  unfold executeWithRetry
  obtain ⟨f, hfe⟩ : ∃ f, p.maximum_attempts = f + 1 := ⟨p.maximum_attempts - 1, by omega⟩
  have hs : shouldRetry p 1 ErrKind.permanent = false := by simp [shouldRetry]
  rw [hfe]
  simp [runAttempts, h1, hs]

/-- Witness for `permanent_not_retried`: the default policy makes exactly one
attempt of an action failing permanently on attempt 1. -/
theorem permanent_not_retried_witness :
    executeWithRetry DEFAULT_RETRY_POLICY (fun _ => AttemptResult.failure ErrKind.permanent) =
      ([Outcome.Failure], false) :=
  (permanent_not_retried DEFAULT_RETRY_POLICY _ (by norm_num [DEFAULT_RETRY_POLICY]) rfl).1

/- ## Compensation ordering (claims C1 and C7) -/

/-- Claim C1: in the solution workflow, if every forward step before step `k`
succeeds and step `k` fails terminally (in particular, permanently), then the
compensations invoked are exactly those of steps `k-1` down to 1 in strict
descending index order — never step `k` or any step beyond — and the run ends
`Compensated`.  Workflow step indices: 1 = `book_flight`, 2 = `book_hotel`,
3 = `book_car` are the claim's 3-step saga steps 0, 1, 2 (workflow step 0 is
`store_booking_request`, step 4 `accept_payment`); compensation index `j`
undoes step `j` (1 = `cancel_flight`, 2 = `cancel_hotel`, 3 = `cancel_car`). -/
theorem saga_compensation_order (acts comps : ℕ → ℕ → AttemptResult) (k : ℕ)
    (hk1 : 1 ≤ k) (hk4 : k ≤ 4)
    (hok : ∀ i, i < k → (executeWithRetry DEFAULT_RETRY_POLICY (acts i)).2 = true)
    (hfail : (executeWithRetry DEFAULT_RETRY_POLICY (acts k)).2 = false)
    (hcomp : ∀ j, (executeWithRetry DEFAULT_RETRY_POLICY (comps j)).2 = true) :
    (bookingRun acts comps).comps = (List.range' 1 (k - 1)).reverse ∧
    (bookingRun acts comps).comps.Chain' (fun a b => b < a) ∧
    (∀ j ∈ (bookingRun acts comps).comps, 1 ≤ j ∧ j < k) ∧
    (bookingRun acts comps).status = SagaStatus.Compensated := by
  interval_cases k
  · have h0 := hok 0 (by norm_num)
    simp [bookingRun, failWith, compensateBlock, runComp, h0, hfail, hcomp 1, hcomp 2, hcomp 3,
      List.range']
  · have h0 := hok 0 (by norm_num)
    have h1 := hok 1 (by norm_num)
    simp [bookingRun, failWith, compensateBlock, runComp, h0, h1, hfail, hcomp 1, hcomp 2,
      hcomp 3, List.range']
  · have h0 := hok 0 (by norm_num)
    have h1 := hok 1 (by norm_num)
    have h2 := hok 2 (by norm_num)
    simp [bookingRun, failWith, compensateBlock, runComp, h0, h1, h2, hfail, hcomp 1, hcomp 2,
      hcomp 3, List.range']
  · have h0 := hok 0 (by norm_num)
    have h1 := hok 1 (by norm_num)
    have h2 := hok 2 (by norm_num)
    have h3 := hok 3 (by norm_num)
    simp [bookingRun, failWith, compensateBlock, runComp, h0, h1, h2, h3, hfail, hcomp 1,
      hcomp 2, hcomp 3, List.range']

/-- Witness for `saga_compensation_order`: spec scenario A — `book_hotel`
(workflow step 2) fails permanently on attempt 1 after the flight succeeded;
the compensation sequence is `[cancel_flight]` only and the run ends
`Compensated`. -/
theorem saga_compensation_order_witness :
    (bookingRun scenarioA_acts allOkComps).comps = [1] ∧
    (bookingRun scenarioA_acts allOkComps).status = SagaStatus.Compensated := by
  have h := saga_compensation_order scenarioA_acts allOkComps 2 (by norm_num) (by norm_num)
    (fun i hi => by interval_cases i <;> rfl) rfl (fun j => rfl)
  exact ⟨by rw [h.1]; rfl, h.2.2.2⟩

/-- Claim C7: if, after the forward failure of step `k`, the compensation of
step `j` itself fails terminally — exhausts its own retry policy — while the
compensations of the steps above `j` succeeded, then the compensations
invoked are exactly those of steps `k-1` down to `j`, the run ends `Failed`
(not `Compensated`), and the failed compensation's attempts are recorded in
the compensation log rather than discarded. -/
theorem compensation_exhausted_fails (acts comps : ℕ → ℕ → AttemptResult) (k j : ℕ)
    (hk4 : k ≤ 4) (hj1 : 1 ≤ j) (hjk : j < k)
    (hok : ∀ i, i < k → (executeWithRetry DEFAULT_RETRY_POLICY (acts i)).2 = true)
    (hfail : (executeWithRetry DEFAULT_RETRY_POLICY (acts k)).2 = false)
    (hcab : ∀ i, j < i → (executeWithRetry DEFAULT_RETRY_POLICY (comps i)).2 = true)
    (hcj : (executeWithRetry DEFAULT_RETRY_POLICY (comps j)).2 = false) :
    (bookingRun acts comps).comps = (List.range' j (k - j)).reverse ∧
    (bookingRun acts comps).status = SagaStatus.Failed ∧
    (bookingRun acts comps).status ≠ SagaStatus.Compensated ∧
    (j, Outcome.Failure) ∈ (bookingRun acts comps).compLog := by
  have hm := failure_mem_of_not_ok DEFAULT_RETRY_POLICY (comps j)
    (by norm_num [DEFAULT_RETRY_POLICY]) hcj
  have hk1 : 1 ≤ k := by omega
  interval_cases k
  · omega
  · interval_cases j
    have h0 := hok 0 (by norm_num)
    have h1 := hok 1 (by norm_num)
    simp [bookingRun, failWith, compensateBlock, runComp, h0, h1, hfail, hcj, List.range',
      List.mem_map]
    tauto
  · have h0 := hok 0 (by norm_num)
    have h1 := hok 1 (by norm_num)
    have h2 := hok 2 (by norm_num)
    interval_cases j
    · simp [bookingRun, failWith, compensateBlock, runComp, h0, h1, h2, hfail, hcj,
        hcab 2 (by norm_num), List.range', List.mem_map, List.mem_append]
      tauto
    · simp [bookingRun, failWith, compensateBlock, runComp, h0, h1, h2, hfail, hcj,
        List.range', List.mem_map]
      tauto
  · have h0 := hok 0 (by norm_num)
    have h1 := hok 1 (by norm_num)
    have h2 := hok 2 (by norm_num)
    have h3 := hok 3 (by norm_num)
    interval_cases j
    · simp [bookingRun, failWith, compensateBlock, runComp, h0, h1, h2, h3, hfail, hcj,
        hcab 2 (by norm_num), hcab 3 (by norm_num), List.range', List.mem_map, List.mem_append]
      tauto
    · simp [bookingRun, failWith, compensateBlock, runComp, h0, h1, h2, h3, hfail, hcj,
        hcab 3 (by norm_num), List.range', List.mem_map, List.mem_append]
      tauto
    · simp [bookingRun, failWith, compensateBlock, runComp, h0, h1, h2, h3, hfail, hcj,
        List.range', List.mem_map]
      tauto

/-- Witness for `compensation_exhausted_fails`: spec scenario C —
`accept_payment` (step 4) fails, `cancel_car` (compensation 3) exhausts its
retry policy; only `[cancel_car]` was invoked, its three failed attempts are
on record, and the run ends `Failed`. -/
theorem compensation_exhausted_fails_witness :
    (bookingRun scenarioC_acts scenarioC_comps).comps = [3] ∧
    (bookingRun scenarioC_acts scenarioC_comps).status = SagaStatus.Failed ∧
    (3, Outcome.Failure) ∈ (bookingRun scenarioC_acts scenarioC_comps).compLog := by
  have h := compensation_exhausted_fails scenarioC_acts scenarioC_comps 4 3
    (by norm_num) (by norm_num) (by norm_num)
    (fun i hi => by interval_cases i <;> rfl) rfl
    (fun i hi => by
      have hne : scenarioC_comps i = fun _ => AttemptResult.success :=
        funext fun n => if_neg (by omega)
      rw [hne]
      rfl)
    rfl
  exact ⟨by rw [h.1]; rfl, h.2.1, h.2.2.2⟩

/- ## Association-list lemmas -/

/-- After deleting key `k`, looking `k` up finds nothing. -/
theorem assocGet_assocDel_self {α : Type} (m : List (String × α)) (k : String) :
    assocGet (assocDel m k) k = none := by
  simp only [assocGet, assocDel]
  rw [List.find?_eq_none.mpr]
  · rfl
  · intro e he
    have h := List.of_mem_filter he
    simpa using h

/-- Deleting an absent key changes nothing. -/
theorem assocDel_of_get_none {α : Type} (m : List (String × α)) (k : String)
    (h : assocGet m k = none) : assocDel m k = m := by
  simp only [assocGet] at h
  have h' : m.find? (fun e => e.1 == k) = none := by
    cases hf : m.find? (fun e => e.1 == k) with
    | none => rfl
    | some e => rw [hf] at h; simp at h
  rw [List.find?_eq_none] at h'
  simp only [assocDel]
  apply List.filter_eq_self.mpr
  intro e he
  simpa using h' e he

/-- Looking up the key just set finds the new value. -/
theorem assocGet_assocSet_self {α : Type} (m : List (String × α)) (k : String) (v : α) :
    assocGet (assocSet m k v) k = some v := by
  simp [assocGet, assocSet, List.find?]

/-- Deleting the key just set deletes exactly the old entries for it. -/
theorem assocDel_assocSet {α : Type} (m : List (String × α)) (k : String) (v : α) :
    assocDel (assocSet m k v) k = assocDel m k := by
  simp [assocSet, assocDel, List.filter_filter]

/- ## Compensation no-op and idempotence (claims C9, C3) -/

/-- `release_seat` touches only `flight_instances`. -/
theorem release_seat_fr (db : BookingDatabase) (fn : String) (date : ℕ) (sn : String) :
    (release_seat db fn date sn).2.flight_reservations = db.flight_reservations := by
  cases h1 : get_flight_instance db fn date with
  | none => simp [release_seat, h1]
  | some inst =>
    cases h2 : inst.seats.find? (fun s => s.seat_number == sn) with
    | none => simp [release_seat, h1, h2]
    | some s => simp [release_seat, h1, h2]

/-- Releasing a list of seats touches only `flight_instances`. -/
theorem foldl_release_fr (l : List String) (fn : String) (date : ℕ) :
    ∀ db : BookingDatabase,
      (l.foldl (fun d sn => (release_seat d fn date sn).2) db).flight_reservations =
        db.flight_reservations := by
  induction l with
  | nil => intro db; rfl
  | cons sn l ih => intro db; rw [List.foldl_cons, ih, release_seat_fr]

/-- `cancel_flight` with no reservation on file is a no-op. -/
theorem cancel_flight_none (db : BookingDatabase) (code : String)
    (h : assocGet db.flight_reservations code = none) : cancel_flight db code = db := by
  simp [cancel_flight, h]

/-- `cancel_hotel` with no reservation on file is a no-op. -/
theorem cancel_hotel_none (db : BookingDatabase) (code : String)
    (h : assocGet db.hotel_reservations code = none) : cancel_hotel db code = db := by
  simp [cancel_hotel, h]

/-- `cancel_car` with no reservation on file is a no-op. -/
theorem cancel_car_none (db : BookingDatabase) (code : String)
    (h : assocGet db.car_reservations code = none) : cancel_car db code = db := by
  simp [cancel_car, h]

/-- Cancelling a flight twice equals cancelling it once. -/
theorem cancel_flight_idem (db : BookingDatabase) (code : String) :
    cancel_flight (cancel_flight db code) code = cancel_flight db code := by
  cases h : assocGet db.flight_reservations code with
  | none => rw [cancel_flight_none db code h]; exact cancel_flight_none db code h
  | some r =>
    apply cancel_flight_none
    simp only [cancel_flight, h]
    exact assocGet_assocDel_self _ _

/-- Cancelling a hotel twice equals cancelling it once. -/
theorem cancel_hotel_idem (db : BookingDatabase) (code : String) :
    cancel_hotel (cancel_hotel db code) code = cancel_hotel db code := by
  cases h : assocGet db.hotel_reservations code with
  | none => rw [cancel_hotel_none db code h]; exact cancel_hotel_none db code h
  | some r =>
    cases hh : findWithIdx (fun h' => h'.hotel_name == r.hotel_name) db.hotels 0 with
    | none =>
      have e1 : cancel_hotel db code = db := by simp [cancel_hotel, h, hh]
      rw [e1]; exact e1
    | some p =>
      obtain ⟨i, hotel⟩ := p
      cases hr : findWithIdx (fun rm => rm.room_number == r.room_number) hotel.rooms 0 with
      | none =>
        have e1 : cancel_hotel db code = db := by simp [cancel_hotel, h, hh, hr]
        rw [e1]; exact e1
      | some q =>
        obtain ⟨j, room⟩ := q
        apply cancel_hotel_none
        simp only [cancel_hotel, h, hh, hr]
        exact assocGet_assocDel_self _ _

/-- Cancelling a car twice equals cancelling it once. -/
theorem cancel_car_idem (db : BookingDatabase) (code : String) :
    cancel_car (cancel_car db code) code = cancel_car db code := by
  cases h : assocGet db.car_reservations code with
  | none => rw [cancel_car_none db code h]; exact cancel_car_none db code h
  | some r =>
    cases hc : findWithIdx (fun c => c.license_plate == r.license_plate) db.cars 0 with
    | none =>
      have e1 : cancel_car db code = db := by simp [cancel_car, h, hc]
      rw [e1]; exact e1
    | some p =>
      obtain ⟨i, car⟩ := p
      apply cancel_car_none
      simp only [cancel_car, h, hc]
      exact assocGet_assocDel_self _ _

/-- Claim C9: each compensating activity invoked with a confirmation code for
which no reservation exists returns normally (the embeddings are total — the
source functions contain no `raise`) and leaves the database unchanged; and
running the same cancel twice is equivalent to running it once, so
compensating a step that never succeeded is a harmless no-op. -/
theorem cancel_noop_and_idempotent (db : BookingDatabase) (code : String) :
    (assocGet db.flight_reservations code = none → cancel_flight db code = db) ∧
    (assocGet db.hotel_reservations code = none → cancel_hotel db code = db) ∧
    (assocGet db.car_reservations code = none → cancel_car db code = db) ∧
    cancel_flight (cancel_flight db code) code = cancel_flight db code ∧
    cancel_hotel (cancel_hotel db code) code = cancel_hotel db code ∧
    cancel_car (cancel_car db code) code = cancel_car db code :=
  ⟨cancel_flight_none db code, cancel_hotel_none db code, cancel_car_none db code,
   cancel_flight_idem db code, cancel_hotel_idem db code, cancel_car_idem db code⟩

/-- Witness for `cancel_noop_and_idempotent`: on the demo database, which has
no reservations on file, all three cancels leave the database unchanged. -/
theorem cancel_noop_and_idempotent_witness :
    cancel_flight demoDb "C1" = demoDb ∧ cancel_hotel demoDb "C1" = demoDb ∧
    cancel_car demoDb "C1" = demoDb :=
  ⟨(cancel_noop_and_idempotent demoDb "C1").1 rfl,
   (cancel_noop_and_idempotent demoDb "C1").2.1 rfl,
   (cancel_noop_and_idempotent demoDb "C1").2.2.1 rfl⟩

/-- Counterexample to claim C3 as stated: calling `book_flight` a second time
with the same confirmation code does NOT leave the external state identical —
it books a second seat.  On the demo database (2 available economy seats) the
first call books seat 1A leaving 1 available; the second call with the same
code books seat 1B as well, leaving 0, and overwrites the stored
reservation. -/
theorem book_twice_books_again :
    get_available_seat_count demoDb "AA1234" 10 "economy" = 2 ∧
    (book_flight demoDb demoFlightReq "t").map
      (fun p => get_available_seat_count p.2 "AA1234" 10 "economy") = Except.ok 1 ∧
    ((book_flight demoDb demoFlightReq "t").bind
      (fun p => book_flight p.2 demoFlightReq "t")).map
      (fun p => (p.1.seat_numbers, get_available_seat_count p.2 "AA1234" 10 "economy")) =
      Except.ok (["1B"], 0) :=
  ⟨rfl, rfl, rfl⟩

/-- Claim C3 as amended: repeated invocation with the same confirmation code
is harmless for the compensating actions (second cancel = first cancel), but
the forward booking actions lack this property: a second `book_flight` with
the same code books an additional seat (0 economy seats left instead of 1)
and a second `book_hotel` books a second room's nights (4 room-nights
unavailable instead of 2, room 102 on top of 101). -/
theorem idempotent_compensations_only (db : BookingDatabase) (code : String) :
    cancel_flight (cancel_flight db code) code = cancel_flight db code ∧
    cancel_hotel (cancel_hotel db code) code = cancel_hotel db code ∧
    cancel_car (cancel_car db code) code = cancel_car db code ∧
    ((book_flight demoDb demoFlightReq "t").bind
      (fun p => book_flight p.2 demoFlightReq "t")).map
      (fun p => get_available_seat_count p.2 "AA1234" 10 "economy") = Except.ok 0 ∧
    (book_hotel demoDb demoHotelReq "t" false).map (fun p => hotelUnavailCount p.2) =
      Except.ok 2 ∧
    ((book_hotel demoDb demoHotelReq "t" false).bind
      (fun p => book_hotel p.2 demoHotelReq "t" false)).map
      (fun p => (p.1.room_number, hotelUnavailCount p.2)) = Except.ok ("102", 4) :=
  ⟨cancel_flight_idem db code, cancel_hotel_idem db code, cancel_car_idem db code,
   rfl, rfl, rfl⟩

/- ## List lemmas for the booking/cancellation round trip (claim C10) -/

/-- The hotel-night date list has no duplicates. -/
theorem dateRangeExcl_nodup (a b : ℕ) : (dateRangeExcl a b).Nodup :=
  (List.nodup_range _).map (add_right_injective a)

/-- The car-rental date list has no duplicates. -/
theorem dateRangeIncl_nodup (a b : ℕ) : (dateRangeIncl a b).Nodup :=
  (List.nodup_range _).map (add_right_injective a)

/-- Booking dates that are all new appends exactly those dates. -/
theorem bookDatesList_disjoint (dates : List ℕ) :
    ∀ u : List ℕ, (∀ d ∈ dates, d ∉ u) → dates.Nodup → bookDatesList u dates = u ++ dates := by
  induction dates with
  | nil => intro u _ _; simp [bookDatesList]
  | cons d ds ih =>
    intro u hd hnd
    simp only [bookDatesList, List.foldl_cons]
    have hdc : u.contains d = false := by
      have : d ∉ u := hd d (by simp)
      simpa using this
    rw [hdc]
    simp only [Bool.false_eq_true, if_false]
    simp only [List.nodup_cons] at hnd
    have := ih (u ++ [d]) (fun d' hd' => by
      simp only [List.mem_append, List.mem_singleton]
      rintro (h1 | h1)
      · exact hd d' (by simp [hd']) h1
      · exact hnd.1 (h1 ▸ hd')) hnd.2
    simp only [bookDatesList] at this
    rw [this, List.append_assoc]
    rfl

/-- Releasing the dates just appended restores the original list. -/
theorem releaseDatesList_append (dates : List ℕ) :
    ∀ u : List ℕ, (∀ d ∈ dates, d ∉ u) → releaseDatesList (u ++ dates) dates = u := by
  induction dates with
  | nil => intro u _; simp [releaseDatesList]
  | cons d ds ih =>
    intro u hd
    simp only [releaseDatesList, List.foldl_cons]
    have hc : (u ++ d :: ds).contains d = true := by simp
    rw [hc]
    simp only [if_true]
    have he : (u ++ d :: ds).erase d = u ++ ds := by
      rw [List.erase_append_right _ (hd d (by simp)), List.erase_cons_head]
    rw [he]
    exact ih u (fun d' hd' => hd d' (by simp [hd']))

/-- Unpacking a successful `findWithIdx`: the returned index addresses the
returned element, which satisfies the predicate. -/
theorem findWithIdx_some {α : Type} (p : α → Bool) :
    ∀ (l : List α) (i j : ℕ) (x : α), findWithIdx p l i = some (j, x) →
      ∃ k, j = i + k ∧ l.get? k = some x ∧ p x = true := by
  intro l
  induction l with
  | nil => intro i j x h; simp [findWithIdx] at h
  | cons y ys ih =>
    intro i j x h
    simp only [findWithIdx] at h
    by_cases hp : p y = true
    · rw [if_pos hp] at h
      obtain ⟨h1, h2⟩ := Prod.mk.injEq .. ▸ Option.some.injEq .. ▸ h
      exact ⟨0, by omega, by simp [← h2], h2 ▸ hp⟩
    · rw [if_neg hp] at h
      obtain ⟨k, hk, hg, hpx⟩ := ih (i + 1) j x h
      exact ⟨k + 1, by omega, by simpa using hg, hpx⟩

/-- On a list whose `f`-keys are distinct, the scan for the key of the
element at position `k` finds exactly that position and element. -/
theorem findWithIdx_key {α : Type} (f : α → String) (key : String) :
    ∀ (l : List α) (k : ℕ) (x : α) (i : ℕ), (l.map f).Nodup → l.get? k = some x →
      f x = key → findWithIdx (fun y => f y == key) l i = some (i + k, x) := by
  intro l
  induction l with
  | nil => intro k x i _ h _; simp at h
  | cons y ys ih =>
    intro k x i hnd hget hkey
    simp only [List.map_cons, List.nodup_cons] at hnd
    obtain ⟨hny, hnd'⟩ := hnd
    cases k with
    | zero =>
      simp only [List.get?_cons_zero, Option.some.injEq] at hget
      subst hget
      simp [findWithIdx, hkey]
    | succ k' =>
      simp only [List.get?_cons_succ] at hget
      have hxmem : x ∈ ys := List.get?_mem hget
      have hfx : f x ∈ ys.map f := List.mem_map_of_mem f hxmem
      have hxy : (f y == key) = false := by
        have : f y ≠ key := fun he => hny (by rw [he, ← hkey]; exact hfx)
        simpa using this
      simp only [findWithIdx, hxy, Bool.false_eq_true, if_false]
      rw [show i + (k' + 1) = (i + 1) + k' from by omega]
      exact ih k' x (i + 1) hnd' hget hkey

/-- On a list whose `f`-keys are distinct, the linear search for the key of
the element at position `k` finds that element. -/
theorem find?_key {α : Type} (f : α → String) (key : String) :
    ∀ (l : List α) (k : ℕ) (x : α), (l.map f).Nodup → l.get? k = some x →
      f x = key → l.find? (fun y => f y == key) = some x := by
  intro l
  induction l with
  | nil => intro k x _ h _; simp at h
  | cons y ys ih =>
    intro k x hnd hget hkey
    simp only [List.map_cons, List.nodup_cons] at hnd
    obtain ⟨hny, hnd'⟩ := hnd
    cases k with
    | zero =>
      simp only [List.get?_cons_zero, Option.some.injEq] at hget
      subst hget
      simp [List.find?, hkey]
    | succ k' =>
      simp only [List.get?_cons_succ] at hget
      have hxmem : x ∈ ys := List.get?_mem hget
      have hfx : f x ∈ ys.map f := List.mem_map_of_mem f hxmem
      have hxy : (f y == key) = false := by
        have : f y ≠ key := fun he => hny (by rw [he, ← hkey]; exact hfx)
        simpa using this
      rw [List.find?_cons_of_neg _ (by simp [hxy])]
      exact ih k' x hnd' hget hkey

/-- On a list whose `f`-keys are distinct, updating the first element
carrying the key of the element at position `k` is a positional update. -/
theorem updateFirst_eq_set {α : Type} (f : α → String) (key : String) (g : α → α) :
    ∀ (l : List α) (k : ℕ) (x : α), (l.map f).Nodup → l.get? k = some x →
      f x = key → updateFirst (fun y => f y == key) g l = l.set k (g x) := by
  intro l
  induction l with
  | nil => intro k x _ h _; simp at h
  | cons y ys ih =>
    intro k x hnd hget hkey
    simp only [List.map_cons, List.nodup_cons] at hnd
    obtain ⟨hny, hnd'⟩ := hnd
    cases k with
    | zero =>
      simp only [List.get?_cons_zero, Option.some.injEq] at hget
      subst hget
      simp [updateFirst, hkey]
    | succ k' =>
      simp only [List.get?_cons_succ] at hget
      have hxmem : x ∈ ys := List.get?_mem hget
      have hfx : f x ∈ ys.map f := List.mem_map_of_mem f hxmem
      have hxy : (f y == key) = false := by
        have : f y ≠ key := fun he => hny (by rw [he, ← hkey]; exact hfx)
        simpa using this
      simp only [updateFirst, hxy, Bool.false_eq_true, if_false, List.set_cons_succ]
      rw [ih k' x hnd' hget hkey]

/-- Composing two first-match updates under a predicate the first update
preserves. -/
theorem updateFirst_comp {α : Type} (p : α → Bool) (f g : α → α)
    (hf : ∀ y, p (f y) = p y) :
    ∀ l : List α, updateFirst p g (updateFirst p f l) = updateFirst p (fun y => g (f y)) l := by
  intro l
  induction l with
  | nil => rfl
  | cons y ys ih =>
    by_cases hp : p y = true
    · simp [updateFirst, hp, hf y]
    · simp [updateFirst, hp, ih]

/-- A first-match update that fixes the first match is the identity. -/
theorem updateFirst_eq_self {α : Type} (p : α → Bool) (g : α → α) :
    ∀ (l : List α) (x : α), l.find? p = some x → g x = x → updateFirst p g l = l := by
  intro l
  induction l with
  | nil => intro x h _; simp at h
  | cons y ys ih =>
    intro x h hg
    by_cases hp : p y = true
    · rw [List.find?_cons_of_pos _ hp, Option.some.injEq] at h
      subst h
      simp [updateFirst, hp, hg]
    · rw [List.find?_cons_of_neg _ (by simpa using hp)] at h
      simp only [updateFirst, hp, if_neg]
      rw [if_neg (by simp [hp]), ih x h hg]

/-- Searching after a first-match update under a preserved predicate finds
the updated first match. -/
theorem find?_updateFirst {α : Type} (p : α → Bool) (f : α → α)
    (hf : ∀ y, p (f y) = p y) :
    ∀ l : List α, (updateFirst p f l).find? p = (l.find? p).map f := by
  intro l
  induction l with
  | nil => rfl
  | cons y ys ih =>
    by_cases hp : p y = true
    · simp only [updateFirst, hp, if_true]
      rw [List.find?_cons_of_pos _ ((hf y).symm ▸ hp), List.find?_cons_of_pos _ hp]
      rfl
    · simp only [updateFirst, hp, if_neg]
      rw [if_neg (by simp [hp])]
      rw [List.find?_cons_of_neg _ (by simpa using hp), List.find?_cons_of_neg _ (by simpa using hp)]
      exact ih

/-- Setting a position back to the element it already holds is the
identity. -/
theorem set_of_get? {α : Type} :
    ∀ (l : List α) (n : ℕ) (a : α), l.get? n = some a → l.set n a = l := by
  intro l
  induction l with
  | nil => intro n a h; simp at h
  | cons y ys ih =>
    intro n a h
    cases n with
    | zero => simp only [List.get?_cons_zero, Option.some.injEq] at h; rw [← h]; rfl
    | succ n' =>
      simp only [List.get?_cons_succ] at h
      simp only [List.set_cons_succ]
      rw [ih n' a h]

/-- `get?` after `set` at the same (in-bounds) position. -/
theorem get?_set_self {α : Type} :
    ∀ (l : List α) (n : ℕ) (a : α), n < l.length → (l.set n a).get? n = some a := by
  intro l
  induction l with
  | nil => intro n a h; simp at h
  | cons y ys ih =>
    intro n a h
    cases n with
    | zero => rfl
    | succ n' =>
      simp only [List.set_cons_succ, List.get?_cons_succ]
      exact ih n' a (by simpa using h)

/-- `map` commutes with positional update. -/
theorem list_map_set {α β : Type} (f : α → β) :
    ∀ (l : List α) (n : ℕ) (a : α), (l.set n a).map f = (l.map f).set n (f a) := by
  intro l
  induction l with
  | nil => intro n a; simp
  | cons y ys ih =>
    intro n a
    cases n with
    | zero => rfl
    | succ n' => simp [List.set_cons_succ, ih]

/-- Unpacking a successful `findHotelRoomAux` search: the returned positions
address the returned hotel and room, and the room matches the requested type
and is available for the dates. -/
theorem findHotelRoomAux_some (city t : String) (dates : List ℕ) :
    ∀ (l : List Hotel) (i0 i j : ℕ) (ht : Hotel) (r : Room),
      findHotelRoomAux city t dates l i0 = some (i, j, ht, r) →
      ∃ k, i = i0 + k ∧ l.get? k = some ht ∧ ht.rooms.get? j = some r ∧
        (r.room_type == t && r.is_available dates) = true := by
  intro l
  induction l with
  | nil => intro i0 i j ht r hf; simp [findHotelRoomAux] at hf
  | cons y ys ih =>
    intro i0 i j ht r hf
    simp only [findHotelRoomAux] at hf
    by_cases hc : (y.city == city) = true
    · rw [if_pos hc] at hf
      cases hw : findWithIdx (fun rm => rm.room_type == t && rm.is_available dates) y.rooms 0 with
      | none =>
        rw [hw] at hf
        obtain ⟨k, hk, hg, hgr, hp⟩ := ih (i0 + 1) i j ht r hf
        exact ⟨k + 1, by omega, by simpa using hg, hgr, hp⟩
      | some q =>
        obtain ⟨j', r'⟩ := q
        rw [hw] at hf
        simp only [Option.some.injEq, Prod.mk.injEq] at hf
        obtain ⟨hi, hj, hh, hr⟩ := hf
        obtain ⟨k2, hk2, hgr2, hp2⟩ := findWithIdx_some _ y.rooms 0 j' r' hw
        subst hh hr hj hi
        exact ⟨0, by omega, rfl, by rw [show j' = k2 from by omega]; exact hgr2, hp2⟩
    · rw [if_neg hc] at hf
      obtain ⟨k, hk, hg, hgr, hp⟩ := ih (i0 + 1) i j ht r hf
      exact ⟨k + 1, by omega, by simpa using hg, hgr, hp⟩

/-- Booking a hotel room and then cancelling it with the same confirmation
code restores the database exactly: the booked nights are released on the
same room and the reservation entry is removed. -/
theorem book_cancel_hotel_inv (db : BookingDatabase) (req : HotelReservationRequest)
    (now : String) (br : TravelBookingRequest) (i j : ℕ) (hotel : Hotel) (room : Room)
    (hbr : assocGet db.booking_requests req.confirmation_code = some br)
    (hfind : find_available_hotel_room db br.destination_city req.room_type
      req.check_in req.check_out = some (i, j, hotel, room))
    (hnames : (db.hotels.map Hotel.hotel_name).Nodup)
    (hroomnums : (hotel.rooms.map Room.room_number).Nodup)
    (hres : assocGet db.hotel_reservations req.confirmation_code = none) :
    (book_hotel db req now false).map (fun p => cancel_hotel p.2 req.confirmation_code) =
      Except.ok db := by
  obtain ⟨k, hik, hgh, hgr, hpred⟩ :=
    findHotelRoomAux_some br.destination_city req.room_type
      (dateRangeExcl req.check_in req.check_out) db.hotels 0 i j hotel room hfind
  have hik' : i = k := by omega
  subst hik'
  obtain ⟨hilen, -⟩ := List.get?_eq_some.mp hgh
  obtain ⟨hjlen, -⟩ := List.get?_eq_some.mp hgr
  have hdisj : ∀ d ∈ dateRangeExcl req.check_in req.check_out, d ∉ room.unavailable_dates := by
    have hav : room.is_available (dateRangeExcl req.check_in req.check_out) = true :=
      (Bool.and_eq_true _ _ |>.mp hpred).2
    simp only [Room.is_available, Bool.not_eq_eq_eq_not, Bool.not_true, List.any_eq_false] at hav
    intro d hd hmem
    have := hav d hd
    simp [hmem] at this
  have hudr : releaseDatesList
      (bookDatesList room.unavailable_dates (dateRangeExcl req.check_in req.check_out))
      (dateRangeExcl req.check_in req.check_out) = room.unavailable_dates := by
    rw [bookDatesList_disjoint _ _ hdisj (dateRangeExcl_nodup _ _)]
    exact releaseDatesList_append _ _ hdisj
  simp only [book_hotel, get_booking_request, hbr, Bool.and_false, Bool.false_eq_true,
    if_false]
  rw [hfind]
  simp only [Except.map]
  -- now the cancel of the just-produced database state
  simp only [cancel_hotel]
  rw [assocGet_assocSet_self]
  dsimp only
  have hmapset : ((db.hotels.set i
      { hotel with rooms := (hotel.rooms.set j (room.book_dates (dateRangeExcl req.check_in req.check_out))) }).map
        Hotel.hotel_name) = db.hotels.map Hotel.hotel_name := by
    rw [list_map_set]
    exact set_of_get? _ _ _ (by rw [List.get?_map, hgh]; rfl)
  have hw1 := findWithIdx_key Hotel.hotel_name hotel.hotel_name
    (db.hotels.set i
      { hotel with rooms := (hotel.rooms.set j (room.book_dates (dateRangeExcl req.check_in req.check_out))) })
    i _ 0 (by rw [hmapset]; exact hnames)
    (get?_set_self _ _ _ (by simpa using hilen)) rfl
  rw [hw1]
  dsimp only
  have hmaprooms : (((hotel.rooms.set j (room.book_dates (dateRangeExcl req.check_in req.check_out)))).map
      Room.room_number) = hotel.rooms.map Room.room_number := by
    rw [list_map_set]
    exact set_of_get? _ _ _ (by rw [List.get?_map, hgr]; rfl)
  have hw2 := findWithIdx_key Room.room_number room.room_number
    (hotel.rooms.set j (room.book_dates (dateRangeExcl req.check_in req.check_out)))
    j _ 0 (by rw [hmaprooms]; exact hroomnums)
    (get?_set_self _ _ _ (by simpa using hjlen)) rfl
  rw [hw2]
  dsimp only
  simp only [Room.book_dates, hudr, Nat.zero_add, List.set_set]
  have hre : Room.mk room.room_number room.room_type room.unavailable_dates = room := rfl
  rw [hre, set_of_get? _ _ _ hgr]
  have hhe : Hotel.mk hotel.hotel_name hotel.hotel_id hotel.city hotel.airport_code
      hotel.rooms hotel.rates = hotel := rfl
  rw [hhe, set_of_get? _ _ _ hgh, assocDel_assocSet, assocDel_of_get_none _ _ hres]

/-- Booking a rental car and then cancelling it with the same confirmation
code restores the database exactly: the inclusive rental dates are released
on the same car and the reservation entry is removed. -/
theorem book_cancel_car_inv (db : BookingDatabase) (req : CarReservationRequest)
    (now : String) (br : TravelBookingRequest) (i : ℕ) (car : Car)
    (hbr : assocGet db.booking_requests req.confirmation_code = some br)
    (hfind : find_available_car db br.destination_city req.car_type
      req.pickup_date req.return_date = some (i, car))
    (hplates : (db.cars.map Car.license_plate).Nodup)
    (hres : assocGet db.car_reservations req.confirmation_code = none) :
    (book_car db req now false).map (fun p => cancel_car p.2 req.confirmation_code) =
      Except.ok db := by
  have hfw : ∃ loc, city_to_airport db.airports br.destination_city = some loc := by
    cases hcity : city_to_airport db.airports br.destination_city with
    | none => simp [find_available_car, hcity] at hfind
    | some loc => exact ⟨loc, rfl⟩
  obtain ⟨loc, hloc⟩ := hfw
  have hfw2 : findWithIdx (fun c => c.location == loc && c.car_type == req.car_type &&
      c.is_available (dateRangeIncl req.pickup_date req.return_date)) db.cars 0 =
      some (i, car) := by
    simpa [find_available_car, hloc] using hfind
  obtain ⟨k, hik, hgc, hpred⟩ := findWithIdx_some _ db.cars 0 i car hfw2
  have hik' : i = k := by omega
  subst hik'
  obtain ⟨hilen, -⟩ := List.get?_eq_some.mp hgc
  have hdisj : ∀ d ∈ dateRangeIncl req.pickup_date req.return_date,
      d ∉ car.unavailable_dates := by
    have hav : car.is_available (dateRangeIncl req.pickup_date req.return_date) = true := by
      simp only [Bool.and_eq_true] at hpred
      exact hpred.2
    simp only [Car.is_available, Bool.not_eq_eq_eq_not, Bool.not_true, List.any_eq_false] at hav
    intro d hd hmem
    have := hav d hd
    simp [hmem] at this
  have hudr : releaseDatesList
      (bookDatesList car.unavailable_dates (dateRangeIncl req.pickup_date req.return_date))
      (dateRangeIncl req.pickup_date req.return_date) = car.unavailable_dates := by
    rw [bookDatesList_disjoint _ _ hdisj (dateRangeIncl_nodup _ _)]
    exact releaseDatesList_append _ _ hdisj
  simp only [book_car, get_booking_request, hbr, Bool.and_false, Bool.false_eq_true, if_false]
  rw [hfind]
  simp only [Except.map]
  simp only [cancel_car]
  rw [assocGet_assocSet_self]
  dsimp only
  have hmapset : ((db.cars.set i
      (car.book_dates (dateRangeIncl req.pickup_date req.return_date))).map
        Car.license_plate) = db.cars.map Car.license_plate := by
    rw [list_map_set]
    exact set_of_get? _ _ _ (by rw [List.get?_map, hgc]; rfl)
  have hw1 := findWithIdx_key Car.license_plate car.license_plate
    (db.cars.set i (car.book_dates (dateRangeIncl req.pickup_date req.return_date)))
    i _ 0 (by rw [hmapset]; exact hplates)
    (get?_set_self _ _ _ (by simpa using hilen)) rfl
  rw [hw1]
  dsimp only
  simp only [Car.book_dates, hudr, Nat.zero_add, List.set_set]
  have hce : Car.mk car.license_plate car.make car.model car.unavailable_dates car.car_type
      car.location car.daily_rate = car := rfl
  rw [hce, set_of_get? _ _ _ hgc, assocDel_assocSet, assocDel_of_get_none _ _ hres]

/-- Unpacking a successful `find_available_flight`: the returned instance is
the first instance of the returned flight on the date, and the returned seat
is the first available seat of the class on it. -/
theorem find_available_flight_some (db : BookingDatabase) (a b : String) (date : ℕ)
    (cls : String) (flight : Flight) (inst : FlightInstance) (seat : SeatInstance)
    (h : find_available_flight db a b date cls = some (flight, inst, seat)) :
    get_flight_instance db flight.flight_number date = some inst ∧
    inst.seats.find? (fun s => s.carriage_class == cls && s.is_available) = some seat := by
  unfold find_available_flight at h
  cases h1 : city_to_airport db.airports a with
  | none => rw [h1] at h; simp at h
  | some dep =>
    cases h2 : city_to_airport db.airports b with
    | none => rw [h1, h2] at h; simp at h
    | some arr =>
      rw [h1, h2] at h
      obtain ⟨f, _hf_mem, hf_eq⟩ := List.exists_of_findSome?_eq_some h
      cases h3 : get_flight_instance db f.flight_number date with
      | none => rw [h3] at hf_eq; simp at hf_eq
      | some inst' =>
        rw [h3] at hf_eq
        cases h4 : find_available_seat db f.flight_number date cls with
        | none => rw [h4] at hf_eq; simp at hf_eq
        | some seat' =>
          rw [h4] at hf_eq
          simp only [Option.some.injEq, Prod.mk.injEq] at hf_eq
          obtain ⟨he1, he2, he3⟩ := hf_eq
          subst he1
          subst he2
          subst he3
          refine ⟨h3, ?_⟩
          have h4' := h4
          simp only [find_available_seat, h3] at h4'
          exact h4'

/-- `release_seat` on a database whose first matching instance and seat
exist: it marks that seat available. -/
theorem release_seat_eq (db : BookingDatabase) (fn : String) (date : ℕ) (sn : String)
    (fi' : FlightInstance) (s' : SeatInstance)
    (h1 : get_flight_instance db fn date = some fi')
    (h2 : fi'.seats.find? (fun s => s.seat_number == sn) = some s') :
    release_seat db fn date sn = (true, { db with flight_instances :=
      (updateFirst (fun fi => fi.flight_number == fn && fi.date == date)
        (fun fi => { fi with seats :=
          (updateFirst (fun s => s.seat_number == sn)
            (fun s => { s with is_available := true }) fi.seats) })
        db.flight_instances) }) := by
  simp only [release_seat]
  rw [h1]
  dsimp only
  rw [h2]

/-- Releasing the seat just booked restores the instance list exactly. -/
theorem release_book_instances (fis : List FlightInstance) (fn : String) (date : ℕ)
    (sn : String) (inst : FlightInstance) (seat : SeatInstance)
    (hfi : fis.find? (fun fi => fi.flight_number == fn && fi.date == date) = some inst)
    (hfs : inst.seats.find? (fun s => s.seat_number == sn) = some seat)
    (hav : seat.is_available = true) :
    updateFirst (fun fi => fi.flight_number == fn && fi.date == date)
      (fun fi => { fi with seats :=
        (updateFirst (fun s => s.seat_number == sn)
          (fun s => { s with is_available := true }) fi.seats) })
      (updateFirst (fun fi => fi.flight_number == fn && fi.date == date)
        (fun fi => { fi with seats :=
          (updateFirst (fun s => s.seat_number == sn)
            (fun s => { s with is_available := false }) fi.seats) }) fis) = fis := by
  rw [updateFirst_comp (fun fi : FlightInstance => fi.flight_number == fn && fi.date == date)
    (fun fi : FlightInstance => { fi with seats :=
      (updateFirst (fun s => s.seat_number == sn)
        (fun s => { s with is_available := false }) fi.seats) })
    (fun fi : FlightInstance => { fi with seats :=
      (updateFirst (fun s => s.seat_number == sn)
        (fun s => { s with is_available := true }) fi.seats) })
    (fun y => rfl)]
  apply updateFirst_eq_self _ _ fis inst hfi
  dsimp only
  rw [updateFirst_comp (fun s : SeatInstance => s.seat_number == sn)
    (fun s : SeatInstance => { s with is_available := false })
    (fun s : SeatInstance => { s with is_available := true })
    (fun y => rfl)]
  rw [updateFirst_eq_self _ _ inst.seats seat hfs (by
    rcases seat with ⟨n, c, d, av⟩
    dsimp only at hav
    subst hav
    rfl)]

/-- The database state `book_flight` leaves behind on success: the found seat
marked unavailable on the first matching instance, and the completed
reservation stored under the confirmation code. -/
def bookedFlightDb (db : BookingDatabase) (fn : String) (date : ℕ) (sn : String)
    (code : String) (resv : CompletedFlightReservation) : BookingDatabase :=
  { db with
    flight_instances := (updateFirst (fun fi => fi.flight_number == fn && fi.date == date)
      (fun fi => { fi with seats := (updateFirst (fun s => s.seat_number == sn)
        (fun s => { s with is_available := false }) fi.seats) })
      db.flight_instances)
    flight_reservations := assocSet db.flight_reservations code resv }

/-- The completed reservation `book_flight` builds. -/
def mkFlightRes (req : FlightReservationRequest) (br : TravelBookingRequest)
    (flight : Flight) (seat : SeatInstance) (now : String) : CompletedFlightReservation :=
  { confirmation_code := req.confirmation_code
    customer_name := br.customer_name
    customer_email := br.customer_email
    flight_number := flight.flight_number
    date := req.departure_date
    seat_numbers := [seat.seat_number]
    carriage_class := req.carriage_class
    price := flight.price
    booked_at := now }

/-- The second component of a successful `release_seat`. -/
theorem release_seat_snd (db1 : BookingDatabase) (fn : String) (date : ℕ) (sn : String)
    (fi' : FlightInstance) (s' : SeatInstance)
    (h1 : db1.flight_instances.find?
      (fun fi => fi.flight_number == fn && fi.date == date) = some fi')
    (h2 : fi'.seats.find? (fun s => s.seat_number == sn) = some s') :
    (release_seat db1 fn date sn).2 = { db1 with flight_instances :=
      (updateFirst (fun fi => fi.flight_number == fn && fi.date == date)
        (fun fi => { fi with seats :=
          (updateFirst (fun s => s.seat_number == sn)
            (fun s => { s with is_available := true }) fi.seats) })
        db1.flight_instances) } := by
  have h1' : get_flight_instance db1 fn date = some fi' := h1
  simp only [release_seat]
  rw [h1']
  dsimp only
  rw [h2]

/-- Cancelling right after booking a flight seat restores the database. -/
theorem cancel_booked_flight (db : BookingDatabase) (fn : String) (date : ℕ) (sn : String)
    (code : String) (resv : CompletedFlightReservation) (inst : FlightInstance)
    (seat : SeatInstance)
    (hfi : db.flight_instances.find?
      (fun fi => fi.flight_number == fn && fi.date == date) = some inst)
    (hfs : inst.seats.find? (fun s => s.seat_number == sn) = some seat)
    (hav : seat.is_available = true)
    (hrfn : resv.flight_number = fn) (hrdate : resv.date = date)
    (hrseats : resv.seat_numbers = [sn])
    (hres : assocGet db.flight_reservations code = none) :
    cancel_flight (bookedFlightDb db fn date sn code resv) code = db := by
  have hproj_fr : (bookedFlightDb db fn date sn code resv).flight_reservations =
    assocSet db.flight_reservations code resv := rfl
  have hproj_fi : (bookedFlightDb db fn date sn code resv).flight_instances =
    (updateFirst (fun fi => fi.flight_number == fn && fi.date == date)
      (fun fi => { fi with seats := (updateFirst (fun s => s.seat_number == sn)
        (fun s => { s with is_available := false }) fi.seats) })
      db.flight_instances) := rfl
  simp only [cancel_flight]
  rw [hproj_fr, assocGet_assocSet_self]
  dsimp only
  rw [hrseats, hrfn, hrdate]
  dsimp only [List.foldl]
  have hfind2 : (bookedFlightDb db fn date sn code resv).flight_instances.find?
      (fun fi => fi.flight_number == fn && fi.date == date) =
      some { inst with seats := (updateFirst (fun s => s.seat_number == sn)
        (fun s => { s with is_available := false }) inst.seats) } := by
    rw [hproj_fi, find?_updateFirst
      (fun fi : FlightInstance => fi.flight_number == fn && fi.date == date)
      (fun fi : FlightInstance => { fi with seats :=
        (updateFirst (fun s => s.seat_number == sn)
          (fun s => { s with is_available := false }) fi.seats) })
      (fun y => rfl), hfi]
    rfl
  have hfind3 : ({ inst with seats := (updateFirst (fun s => s.seat_number == sn)
      (fun s => { s with is_available := false }) inst.seats) }).seats.find?
      (fun s => s.seat_number == sn) =
      some { seat with is_available := false } := by
    dsimp only
    rw [find?_updateFirst (fun s : SeatInstance => s.seat_number == sn)
      (fun s : SeatInstance => { s with is_available := false })
      (fun y => rfl), hfs]
    rfl
  rw [release_seat_snd _ fn date sn _ _ hfind2 hfind3]
  dsimp only
  rw [hproj_fi, hproj_fr]
  rw [release_book_instances db.flight_instances fn date sn inst seat hfi hfs hav]
  rw [assocDel_assocSet, assocDel_of_get_none _ _ hres]
  simp only [bookedFlightDb]

/-- Booking a flight seat and then cancelling it with the same confirmation
code restores the database exactly: the booked seat is released on the same
instance and the reservation entry is removed. -/
theorem book_cancel_flight_inv (db : BookingDatabase) (req : FlightReservationRequest)
    (now : String) (br : TravelBookingRequest) (flight : Flight) (inst : FlightInstance)
    (seat : SeatInstance)
    (hbr : assocGet db.booking_requests req.confirmation_code = some br)
    (hfind : find_available_flight db req.departure_city req.destination_city
      req.departure_date req.carriage_class = some (flight, inst, seat))
    (hseatnums : (inst.seats.map SeatInstance.seat_number).Nodup)
    (hres : assocGet db.flight_reservations req.confirmation_code = none) :
    (book_flight db req now).map (fun p => cancel_flight p.2 req.confirmation_code) =
      Except.ok db := by
  obtain ⟨hinst, hseat⟩ := find_available_flight_some db _ _ _ _ _ _ _ hfind
  have hseat_mem : seat ∈ inst.seats := List.mem_of_find?_eq_some hseat
  have hseat_pred := List.find?_some hseat
  have hseat_avail : seat.is_available = true := by
    simp only [Bool.and_eq_true] at hseat_pred
    exact hseat_pred.2
  obtain ⟨si, hsi⟩ := List.get?_of_mem hseat_mem
  have hfindseat : inst.seats.find? (fun s => s.seat_number == seat.seat_number) = some seat :=
    find?_key SeatInstance.seat_number seat.seat_number inst.seats si seat hseatnums hsi rfl
  have hfi : db.flight_instances.find?
      (fun fi => fi.flight_number == flight.flight_number && fi.date == req.departure_date) =
      some inst := hinst
  have hbs : book_seat db flight.flight_number req.departure_date seat.seat_number =
      (true, { db with flight_instances :=
        (updateFirst (fun fi => fi.flight_number == flight.flight_number &&
            fi.date == req.departure_date)
          (fun fi => { fi with seats :=
            (updateFirst (fun s => s.seat_number == seat.seat_number)
              (fun s => { s with is_available := false }) fi.seats) })
          db.flight_instances) }) := by
    simp only [book_seat]
    rw [hinst]
    dsimp only
    rw [hfindseat]
    dsimp only
    rw [if_pos hseat_avail]
  have hbf : book_flight db req now = Except.ok
      (mkFlightRes req br flight seat now,
       bookedFlightDb db flight.flight_number req.departure_date seat.seat_number
         req.confirmation_code (mkFlightRes req br flight seat now)) := by
    simp only [book_flight, get_booking_request, hbr]
    rw [hfind]
    dsimp only
    rw [hbs]
    rfl
  rw [hbf]
  simp only [Except.map]
  exact congrArg Except.ok (cancel_booked_flight db flight.flight_number req.departure_date
    seat.seat_number req.confirmation_code (mkFlightRes req br flight seat now) inst seat
    hfi hfindseat hseat_avail rfl rfl rfl hres)

/-- Claim C10: for every successful forward booking the matching cancel is a
left inverse on the availability state.  After `book_hotel` books the nights
`[check_in, check_out)` and `cancel_hotel` runs for the same confirmation
code, exactly those dates are released on the same room and the reservation
entry is removed, restoring the database to the pre-booking state; the same
round trip holds for `book_car`/`cancel_car` over the inclusive range
`[pickup_date, return_date]` and for `book_flight`/`cancel_flight` over the
booked seat.  (Hypotheses: the booking request is on file, the search
succeeds, no reservation already uses the code, and the cancel-side lookup
keys — hotel names, room numbers, license plates, seat numbers — are
unambiguous, as in the seeded database.) -/
theorem book_cancel_roundtrip :
    (∀ (db : BookingDatabase) (req : HotelReservationRequest) (now : String)
        (br : TravelBookingRequest) (i j : ℕ) (hotel : Hotel) (room : Room),
      assocGet db.booking_requests req.confirmation_code = some br →
      find_available_hotel_room db br.destination_city req.room_type req.check_in
        req.check_out = some (i, j, hotel, room) →
      (db.hotels.map Hotel.hotel_name).Nodup →
      (hotel.rooms.map Room.room_number).Nodup →
      assocGet db.hotel_reservations req.confirmation_code = none →
      (book_hotel db req now false).map (fun p => cancel_hotel p.2 req.confirmation_code) =
        Except.ok db) ∧
    (∀ (db : BookingDatabase) (req : CarReservationRequest) (now : String)
        (br : TravelBookingRequest) (i : ℕ) (car : Car),
      assocGet db.booking_requests req.confirmation_code = some br →
      find_available_car db br.destination_city req.car_type req.pickup_date
        req.return_date = some (i, car) →
      (db.cars.map Car.license_plate).Nodup →
      assocGet db.car_reservations req.confirmation_code = none →
      (book_car db req now false).map (fun p => cancel_car p.2 req.confirmation_code) =
        Except.ok db) ∧
    (∀ (db : BookingDatabase) (req : FlightReservationRequest) (now : String)
        (br : TravelBookingRequest) (flight : Flight) (inst : FlightInstance)
        (seat : SeatInstance),
      assocGet db.booking_requests req.confirmation_code = some br →
      find_available_flight db req.departure_city req.destination_city
        req.departure_date req.carriage_class = some (flight, inst, seat) →
      (inst.seats.map SeatInstance.seat_number).Nodup →
      assocGet db.flight_reservations req.confirmation_code = none →
      (book_flight db req now).map (fun p => cancel_flight p.2 req.confirmation_code) =
        Except.ok db) :=
  ⟨fun db req now br i j hotel room h1 h2 h3 h4 h5 =>
      book_cancel_hotel_inv db req now br i j hotel room h1 h2 h3 h4 h5,
   fun db req now br i car h1 h2 h3 h4 =>
      book_cancel_car_inv db req now br i car h1 h2 h3 h4,
   fun db req now br flight inst seat h1 h2 h3 h4 =>
      book_cancel_flight_inv db req now br flight inst seat h1 h2 h3 h4⟩

/-- Witness for `book_cancel_roundtrip` on the demo database: booking then
cancelling the hotel room, the rental car, and the flight seat each restore
`demoDb` exactly. -/
theorem book_cancel_roundtrip_witness :
    (book_hotel demoDb demoHotelReq "t" false).map (fun p => cancel_hotel p.2 "C1") =
      Except.ok demoDb ∧
    (book_car demoDb demoCarReq "t" false).map (fun p => cancel_car p.2 "C1") =
      Except.ok demoDb ∧
    (book_flight demoDb demoFlightReq "t").map (fun p => cancel_flight p.2 "C1") =
      Except.ok demoDb := by
  refine ⟨?_, ?_, ?_⟩
  · exact book_cancel_roundtrip.1 demoDb demoHotelReq "t" demoRequest 0 0 _ _
      rfl rfl (by decide) (by decide) rfl
  · exact book_cancel_roundtrip.2.1 demoDb demoCarReq "t" demoRequest 0 _
      rfl rfl (by decide) rfl
  · exact book_cancel_roundtrip.2.2 demoDb demoFlightReq "t" demoRequest _ _ _
      rfl rfl (by decide) rfl
